import Mathlib

/-!
Verification development for the ijonis-caller repository.

The repository is a browser-based phone-call simulator: a React call
interface (`src/components/CallInterface.tsx`), an audio pipeline
(`src/lib/audio-processor.ts`), serverless CRUD handlers for simulator
profiles (`api/simulators/list.ts`, `api/simulators/[slug]/update.ts`,
the delete handler, and a vite dev-server plugin), and a `/api/session`
endpoint that exchanges the server API key for an ephemeral realtime
credential.

This file gives a shallow embedding of those parts of the code and proves
or refutes the specification claims about them.  Strings that the code
manipulates character by character (slugs) are modelled as `List Char`;
other strings are Lean `String`s.  JS numbers that the code only compares
are modelled as `Int`; the turn-detection threshold is a `Rat`.
-/

/-! ## Character classes and slug validation

Translated from `api/simulators/[slug]/update.ts`:

  function isValidSlug(slug: string): boolean {
    return /^[a-z0-9]([a-z0-9-]{0,48}[a-z0-9])?$/.test(slug) || /^[a-z0-9]$/.test(slug);
  }
-/

/-- Character class `[a-z0-9]` of the slug regexes. -/
def isLowerAlnum (c : Char) : Bool :=
  ('a' ≤ c && c ≤ 'z') || ('0' ≤ c && c ≤ '9')

/-- Character class `[a-z0-9-]` of the slug regexes. -/
def isSlugChar (c : Char) : Bool :=
  isLowerAlnum c || c = '-'

/-- Slug validation from `api/simulators/[slug]/update.ts` (`isValidSlug`).
The code tests `/^[a-z0-9]([a-z0-9-]{0,48}[a-z0-9])?$/ || /^[a-z0-9]$/`:
a match is a first alphanumeric character followed either by nothing or by
at most 48 characters from `[a-z0-9-]` and a final alphanumeric character.
Equivalently, on `c :: rest`: `c` alphanumeric, and `rest` is empty or has
length at most 49, all of `rest` except its last character in `[a-z0-9-]`,
and the last character of `rest` alphanumeric. -/
def isValidSlug (l : List Char) : Bool :=
  match l with
  | [] => false
  | [c] => isLowerAlnum c
  | c :: rest =>
    isLowerAlnum c && decide (rest.length ≤ 49) &&
      rest.dropLast.all isSlugChar &&
      (match rest.getLast? with
       | some d => isLowerAlnum d
       | none => false)

/-- The slug pattern as written in the spec: `^[a-z0-9][a-z0-9-]*[a-z0-9]?$`.
A string matches iff it is nonempty, its first character is in `[a-z0-9]`,
and every later character is in `[a-z0-9-]` (the optional trailing
`[a-z0-9]?` is subsumed by `[a-z0-9-]*`, which can also absorb that
character).  This definition follows the spec wording, for comparison with
the code's `isValidSlug`. -/
def specSlugMatch (l : List Char) : Bool :=
  match l with
  | [] => false
  | c :: rest => isLowerAlnum c && rest.all isSlugChar

example : isValidSlug "abc-def".toList = true := by decide
example : isValidSlug "a-".toList = false := by decide
example : specSlugMatch "a-".toList = true := by decide

/-! ## The slug sanitizer `toSlug`

Translated from the design document (`docs/plans/...-design.md`), which is
where the `src/types.ts` helpers used by `pages/Config.tsx` are recorded:

  export function toSlug(input: string): string {
    return input
      .toLowerCase()
      .replace(/[äöüß]/g, (char) => ({ ä: 'ae', ö: 'oe', ü: 'ue', ß: 'ss' })[char] || char)
      .replace(/[^a-z0-9]+/g, '-')
      .replace(/^-|-$/g, '')
      .slice(0, 50);
  }
-/

/-- Lowercasing step of `toSlug` (`input.toLowerCase()`), restricted to the
character classes the later stages distinguish: ASCII letters and the
uppercase umlauts that the next stage expands.  Any other character is left
unchanged, which is immaterial for the results proved here because every
character outside `[a-z0-9äöüß]` is collapsed to a hyphen by the following
stage regardless of case. -/
def jsToLower (c : Char) : Char :=
  if 'A' ≤ c && c ≤ 'Z' then c.toLower
  else if c = 'Ä' then 'ä'
  else if c = 'Ö' then 'ö'
  else if c = 'Ü' then 'ü'
  else c

/-- Umlaut expansion step of `toSlug`
(`.replace(/[äöüß]/g, (char) => ({ ä: 'ae', ö: 'oe', ü: 'ue', ß: 'ss' })[char] || char)`). -/
def umlautExpand (c : Char) : List Char :=
  if c = 'ä' then ['a', 'e']
  else if c = 'ö' then ['o', 'e']
  else if c = 'ü' then ['u', 'e']
  else if c = 'ß' then ['s', 's']
  else [c]

/-- Helper for `collapseRuns`: the flag records whether the previous input
character was part of a non-alphanumeric run whose replacement hyphen has
already been emitted. -/
def collapseRunsAux (prevHyphen : Bool) : List Char → List Char
  | [] => []
  | c :: rest =>
    if isLowerAlnum c then c :: collapseRunsAux false rest
    else if prevHyphen then collapseRunsAux true rest
    else '-' :: collapseRunsAux true rest

/-- Run-collapsing step of `toSlug` (`.replace(/[^a-z0-9]+/g, '-')`): every
maximal run of characters outside `[a-z0-9]` is replaced by one hyphen. -/
def collapseRuns (l : List Char) : List Char :=
  collapseRunsAux false l

/-- First alternative of `.replace(/^-|-$/g, '')`: remove a hyphen at
position 0. -/
def stripLeadingHyphen (l : List Char) : List Char :=
  match l with
  | '-' :: rest => rest
  | _ => l

/-- Second alternative of `.replace(/^-|-$/g, '')`: remove a hyphen at the
final position. -/
def stripTrailingHyphen (l : List Char) : List Char :=
  match l.getLast? with
  | some '-' => l.dropLast
  | _ => l

/-- Edge-stripping step of `toSlug` (`.replace(/^-|-$/g, '')`).  The regex
removes the hyphen at position 0 (if any) and the hyphen at the last
position (if any), one character each; on the one-character string `"-"`
both alternatives cover the same character, which the first alternative
consumes. -/
def stripEdgeHyphens (l : List Char) : List Char :=
  stripTrailingHyphen (stripLeadingHyphen l)

/-- The slug sanitizer `toSlug` from the design document (the `src/types.ts`
helper used by the config page), on `List Char`.  `.slice(0, 50)` is the
final stage, applied after edge-hyphen stripping. -/
def toSlug (l : List Char) : List Char :=
  List.take 50 (stripEdgeHyphens (collapseRuns ((l.map jsToLower).flatMap umlautExpand)))

example : toSlug "Hallo Welt!".toList = "hallo-welt".toList := by decide
example : toSlug "Größe".toList = "groesse".toList := by decide
example : toSlug "!!!".toList = [] := by decide

/-! ## Data model of the simulator store

Structures translated from the interfaces in
`api/simulators/[slug]/update.ts` / `api/simulators/list.ts`.
`ContactTone` and `RealtimeVoice` are string unions in the source and the
stored values are runtime strings from parsed JSON, so they are modelled
as `String` with the validation checks the handlers perform. -/

structure SimulatorMetadata where
  slug : String
  title : String
  subtitle : String
  accentColor : String
  createdAt : String
  updatedAt : String
deriving DecidableEq

structure SimulatorIndex where
  simulators : List SimulatorMetadata
  defaultSlug : String
deriving DecidableEq

/-- `SimulatorConfig extends PromptConfig` with `metadata`, flattened. -/
structure SimulatorConfig where
  agentName : String
  donorName : String
  currentAmount : Int
  targetAmount : Int
  donationHistory : String
  contactTone : String
  additionalInstructions : String
  voice : String
  systemPrompt : String
  metadata : SimulatorMetadata
deriving DecidableEq

/-- The old single-config KV value (`Partial<PromptConfig>`), read by the
migration in `api/simulators/list.ts`.  Every field may be absent. -/
structure PartialPromptConfig where
  agentName : Option String
  donorName : Option String
  currentAmount : Option Int
  targetAmount : Option Int
  donationHistory : Option String
  contactTone : Option String
  additionalInstructions : Option String
  voice : Option String
  systemPrompt : Option String
deriving DecidableEq

/-- The Vercel KV store as the handlers see it: one value per simulator
config key `...:simulators:{slug}:config` (keyed here by the slug itself —
the key prefix is injective), the index key, and the legacy single-config
key. -/
structure KVStore where
  configs : List (String × SimulatorConfig)
  index : Option SimulatorIndex
  oldConfig : Option PartialPromptConfig
deriving DecidableEq

/-- `kv.get` on a simulator config key. -/
def kvGet (k : String) (l : List (String × SimulatorConfig)) : Option SimulatorConfig :=
  (l.find? (fun p => p.1 == k)).map (fun p => p.2)

/-- `kv.set` on a simulator config key: overwrite when present, else add. -/
def kvSet (k : String) (v : SimulatorConfig) (l : List (String × SimulatorConfig)) :
    List (String × SimulatorConfig) :=
  if l.any (fun p => p.1 == k) then
    l.map (fun p => if p.1 == k then (k, v) else p)
  else
    l ++ [(k, v)]

/-- `kv.del` on a simulator config key. -/
def kvDel (k : String) (l : List (String × SimulatorConfig)) :
    List (String × SimulatorConfig) :=
  l.filter (fun p => p.1 != k)

/-- Hex color validation from `api/simulators/[slug]/update.ts`:
`/^#([0-9A-Fa-f]{3}|[0-9A-Fa-f]{6})$/`. -/
def isHexDigit (c : Char) : Bool :=
  ('0' ≤ c && c ≤ '9') || ('a' ≤ c && c ≤ 'f') || ('A' ≤ c && c ≤ 'F')

def isValidHexColor (l : List Char) : Bool :=
  match l with
  | '#' :: rest => (rest.length == 3 || rest.length == 6) && rest.all isHexDigit
  | _ => false

example : isValidHexColor "#C41E3A".toList = true := by decide
example : isValidHexColor "#fff".toList = true := by decide
example : isValidHexColor "red".toList = false := by decide

/-- JS `x || d` for an optional string field: absent or empty falls back. -/
def jsStrOr (o : Option String) (d : String) : String :=
  match o with
  | none => d
  | some s => if s = "" then d else s

/-- JS `String.prototype.trim`: remove whitespace from both ends
(written out structurally so that concrete instances evaluate). -/
def jsTrim (s : String) : String :=
  ⟨((s.data.dropWhile Char.isWhitespace).reverse.dropWhile Char.isWhitespace).reverse⟩

/-- Models `!x || x.trim() === ''` for an optional string field. -/
def blankStr (o : Option String) : Bool :=
  match o with
  | none => true
  | some s => jsTrim s == ""

/-! ## The delete handler

Translated from the DELETE `/api/simulators/[slug]/delete` handler (the
standalone Vercel function; `handleDelete` in the catch-all router is
line-for-line identical). -/

inductive DeleteResp where
  | ok (deletedSlug : String) (newDefaultSlug : Option String)
  | err (status : Nat) (msg : String)
deriving DecidableEq

/-- The DELETE handler.  When the deleted slug is the default and the
filtered list is empty (possible only with duplicate index slugs),
`updatedSimulators[0].slug` in the source throws a TypeError that the
surrounding catch turns into a 500 before `kv.del` runs; that branch is
the `none` case of `head?`. -/
def deleteHandler (slug : String) (st : KVStore) : DeleteResp × KVStore :=
  match st.index with
  | none => (.err 500 "Simulator index not found", st)
  | some index =>
    if !(index.simulators.any (fun s => s.slug == slug)) then
      (.err 404 "Simulator not found", st)
    else if index.simulators.length ≤ 1 then
      (.err 400 "Cannot delete the last simulator", st)
    else
      let updatedSimulators := index.simulators.filter (fun s => s.slug != slug)
      if index.defaultSlug == slug then
        match updatedSimulators.head? with
        | none => (.err 500 "Failed to delete simulator", st)
        | some m =>
          (.ok slug (some m.slug),
           { st with configs := kvDel slug st.configs,
                     index := some { simulators := updatedSimulators, defaultSlug := m.slug } })
      else
        (.ok slug none,
         { st with configs := kvDel slug st.configs,
                   index := some { simulators := updatedSimulators,
                                   defaultSlug := index.defaultSlug } })

/-! ## The list handler and the legacy migration

Translated from `api/simulators/list.ts`: `generateSystemPrompt`, the
default prompt config, `migrateFromOldConfig`, and the GET handler that
creates the index on first use. -/

/-- The `Omit<PromptConfig, 'systemPrompt'>` record that
`generateSystemPrompt` consumes. -/
structure PromptFields where
  agentName : String
  donorName : String
  currentAmount : Int
  targetAmount : Int
  donationHistory : String
  contactTone : String
  additionalInstructions : String
  voice : String
deriving DecidableEq

/-- The `toneMap` record of `generateSystemPrompt` in `list.ts`;
`none` is a JS lookup miss (possible because the stored tone is runtime
data), which the template interpolates as the string `"undefined"`. -/
def toneMap (t : String) : Option String :=
  if t = "Formal" then some "Du siezt konsequent und bleibst professionell höflich"
  else if t = "Casual" then some "Du bist locker und entspannt, aber respektvoll"
  else if t = "Friendly" then some "Du bist herzlich und warmherzig, fast wie ein alter Bekannter"
  else none

/-- The German prompt template of `generateSystemPrompt` in `list.ts`
(apostrophes and double quotes written with escapes). -/
def generateSystemPrompt (c : PromptFields) : String :=
  "Du heißt " ++ c.agentName ++
  ". Du arbeitest seit ein paar Jahren beim Deutschen Roten Kreuz in Hamburg und machst das hier jeden Tag — Spender anrufen, quatschen, schauen wie\x27s läuft. Du bist gut darin und es macht dir ehrlich Spaß. Du bist aufgewachsen in Hamburg, dat hört man auch ein bisschen — \"Moin\" statt \"Guten Tag\", \"na klar\" statt \"selbstverständlich\", manchmal rutsch dir ein \"dat\" oder \"nich\" raus. Nich übertrieben, einfach so wie du halt redest.\n\n" ++
  "Gerade rufst du " ++ c.donorName ++ " an. Du weißt folgendes über die Person:\n" ++
  "- Spendet seit " ++ c.donationHistory ++ " monatlich " ++ toString c.currentAmount ++ "€\n" ++
  "- Euer Ziel wäre, dat auf " ++ toString c.targetAmount ++ "€ zu erhöhen\n" ++
  "- " ++ (toneMap c.contactTone).getD "undefined" ++ "\n" ++
  (if c.additionalInstructions ≠ "" then "- Außerdem: " ++ c.additionalInstructions else "") ++
  "\n\nSo redest du:\n" ++
  "Du sprichst wie ein echter Mensch am Telefon. Du sagst auch mal \"ähm\" oder \"also\" wenn du kurz überlegst. Du lachst mal kurz wenn was lustig ist. Wenn der Spender was Nettes sagt, reagierst du spontan drauf statt auf dein nächstes Thema zu springen. Du bist warmherzig, direkt und bodenständig. Du redest zügig aber nicht gehetzt — wie jemand der routiniert telefoniert und sich dabei wohlfühlt.\n\n" ++
  "Du improvisierst. Du hast zwar ein Ziel (die Spende erhöhen), aber du folgst keinem Skript. Du reagierst auf das was " ++ c.donorName ++
  " sagt, greifst Stichworte auf, fragst nach. Wenn die Person erzählt, hörst du zu und gehst darauf ein bevor du zum nächsten Punkt kommst. Manchmal schweifst du kurz ab und kommst dann zurück — wie in einem echten Gespräch.\n\n" ++
  "Wichtig: Sprich ausschließlich Deutsch. " ++ c.donorName ++
  " spricht zuerst — warte auf das \"Hallo?\" und antworte dann locker und freundlich."

def DEFAULT_PROMPT_CONFIG : PromptFields :=
  { agentName := "Sarah", donorName := "Max Mustermann", currentAmount := 20,
    targetAmount := 35, donationHistory := "2 Jahre", contactTone := "Friendly",
    additionalInstructions := "", voice := "marin" }

def DEFAULT_ACCENT_COLOR : String := "#C41E3A"

/-- The `drk` metadata built by both the migration and the
default-creation branch of the list handler. -/
def drkMetadata (now : String) : SimulatorMetadata :=
  { slug := "drk", title := "DRK Anrufsimulator",
    subtitle := "Trainingsumgebung für Spenderhöhungsanrufe",
    accentColor := DEFAULT_ACCENT_COLOR, createdAt := now, updatedAt := now }

/-- JS `{ ...DEFAULT_PROMPT_CONFIG, ...oldConfig }`: a field present in the
old config (even if empty) overrides the default. -/
def mergedPromptFields (old : PartialPromptConfig) : PromptFields :=
  { agentName := old.agentName.getD "Sarah"
    donorName := old.donorName.getD "Max Mustermann"
    currentAmount := old.currentAmount.getD 20
    targetAmount := old.targetAmount.getD 35
    donationHistory := old.donationHistory.getD "2 Jahre"
    contactTone := old.contactTone.getD "Friendly"
    additionalInstructions := old.additionalInstructions.getD ""
    voice := old.voice.getD "marin" }

/-- Assemble a `SimulatorConfig` from prompt fields, a system prompt, and
metadata (the spreads in `list.ts`). -/
def configOfFields (f : PromptFields) (sp : String) (meta : SimulatorMetadata) :
    SimulatorConfig :=
  { agentName := f.agentName, donorName := f.donorName,
    currentAmount := f.currentAmount, targetAmount := f.targetAmount,
    donationHistory := f.donationHistory, contactTone := f.contactTone,
    additionalInstructions := f.additionalInstructions, voice := f.voice,
    systemPrompt := sp, metadata := meta }

/-- `migrateFromOldConfig` from `list.ts`: returns `none` when no legacy
config exists, otherwise the migrated index and store (new-format config
written, index written, legacy key deleted). -/
def migrateFromOldConfig (now : String) (st : KVStore) :
    Option (SimulatorIndex × KVStore) :=
  match st.oldConfig with
  | none => none
  | some oldCfg =>
    let meta := drkMetadata now
    let merged := mergedPromptFields oldCfg
    let sp := jsStrOr oldCfg.systemPrompt (generateSystemPrompt merged)
    let cfg := configOfFields merged sp meta
    let index : SimulatorIndex := { simulators := [meta], defaultSlug := "drk" }
    some (index,
      { configs := kvSet "drk" cfg st.configs, index := some index, oldConfig := none })

inductive ListResp where
  | ok (index : SimulatorIndex)
  | err (status : Nat) (msg : String)
deriving DecidableEq

/-- The GET `/api/simulators/list` handler from `list.ts`: return the
index, migrating from the legacy key or creating the default simulator
when no index exists yet.  (The `err` constructor mirrors the catch
clause for KV failures, which the model does not produce.) -/
def listHandler (now : String) (st : KVStore) : ListResp × KVStore :=
  match st.index with
  | some index => (.ok index, st)
  | none =>
    match migrateFromOldConfig now st with
    | some (index, st1) => (.ok index, st1)
    | none =>
      let meta := drkMetadata now
      let index : SimulatorIndex := { simulators := [meta], defaultSlug := "drk" }
      let cfg := configOfFields DEFAULT_PROMPT_CONFIG
        (generateSystemPrompt DEFAULT_PROMPT_CONFIG) meta
      (.ok index, { st with configs := kvSet "drk" cfg st.configs, index := some index })

/-! ## The upsert handler

Translated from the default export of `api/simulators/[slug]/update.ts`
(the POST `/api/simulators/[slug]/update` endpoint).  `req.body` is parsed
JSON typed `Partial<SimulatorConfig>`, modelled with optional fields;
`new Date().toISOString()` is the parameter `now`. -/

structure BodyMetadata where
  slug : Option String
  title : Option String
  subtitle : Option String
  accentColor : Option String
deriving DecidableEq

structure UpdateBody where
  agentName : Option String
  donorName : Option String
  currentAmount : Option Int
  targetAmount : Option Int
  donationHistory : Option String
  contactTone : Option String
  additionalInstructions : Option String
  voice : Option String
  systemPrompt : Option String
  metadata : Option BodyMetadata
deriving DecidableEq

inductive UpdateResp where
  | ok (config : SimulatorConfig) (slugChanged : Bool) (newSlug : Option String)
  | err (status : Nat) (msg : String)
deriving DecidableEq

/-- The validation prefix of the upsert handler (lines 79-108 of
`update.ts`), in source order; returns the first failing check's message. -/
def updateValidationError (body : UpdateBody) : Option String :=
  if blankStr body.agentName then some "Agent name is required"
  else if blankStr body.donorName then some "Donor name is required"
  else match body.currentAmount with
  | none => some "Current amount must be positive"
  | some cur =>
    if cur ≤ 0 then some "Current amount must be positive"
    else match body.targetAmount with
    | none => some "Target amount must be greater than current amount"
    | some tgt =>
      if tgt ≤ cur then some "Target amount must be greater than current amount"
      else if !((jsStrOr body.contactTone "") == "Formal" ||
                (jsStrOr body.contactTone "") == "Casual" ||
                (jsStrOr body.contactTone "") == "Friendly") then
        some "Invalid contact tone"
      else match body.systemPrompt with
      | none => some "System prompt must be at least 10 characters"
      | some sp =>
        if sp == "" || sp.length < 10 then some "System prompt must be at least 10 characters"
        else match body.metadata with
        | none => some "Metadata is required"
        | some md =>
          if blankStr md.title then some "Simulator title is required"
          else if blankStr md.subtitle then some "Simulator subtitle is required"
          else if !isValidHexColor (jsStrOr md.accentColor "").toList then
            some "Invalid accent color (must be hex format like #C41E3A)"
          else none

/-- The messages the validation prefix can produce (each identifies the
offending field). -/
def updateValidationMessages : List String :=
  ["Agent name is required", "Donor name is required",
   "Current amount must be positive",
   "Target amount must be greater than current amount",
   "Invalid contact tone", "System prompt must be at least 10 characters",
   "Metadata is required", "Simulator title is required",
   "Simulator subtitle is required",
   "Invalid accent color (must be hex format like #C41E3A)"]

/-- The config document the handler builds on success (lines 147-165). -/
def buildConfig (body : UpdateBody) (md : BodyMetadata) (newSlug now : String)
    (existingConfig : Option SimulatorConfig) : SimulatorConfig :=
  { agentName := (body.agentName).getD ""
    donorName := (body.donorName).getD ""
    currentAmount := (body.currentAmount).getD 0
    targetAmount := (body.targetAmount).getD 0
    donationHistory := jsStrOr body.donationHistory ""
    contactTone := (body.contactTone).getD ""
    additionalInstructions := jsStrOr body.additionalInstructions ""
    voice := jsStrOr body.voice "marin"
    systemPrompt := (body.systemPrompt).getD ""
    metadata :=
      { slug := newSlug
        title := (md.title).getD ""
        subtitle := (md.subtitle).getD ""
        accentColor := (md.accentColor).getD ""
        createdAt := match existingConfig with
                     | some c => c.metadata.createdAt
                     | none => now
        updatedAt := now } }

/-- The index update computed by the upsert handler (lines 176-189). -/
def updatedIndexAfterUpsert (index : SimulatorIndex) (slug newSlug : String)
    (meta : SimulatorMetadata) (isNew slugChanged : Bool) : SimulatorIndex :=
  { simulators :=
      if slugChanged || isNew then
        index.simulators.filter (fun s => s.slug != slug && s.slug != newSlug) ++ [meta]
      else
        index.simulators.map (fun s => if s.slug == slug then meta else s)
    defaultSlug :=
      if slugChanged && index.defaultSlug == slug then newSlug else index.defaultSlug }

/-- The POST `/api/simulators/[slug]/update` handler from
`api/simulators/[slug]/update.ts`, as a function from the request (route
slug, parsed body, current timestamp) and the store to the response and
the updated store.  Branches follow the source order: field validation,
index fetch, existing-config fetch, slug validation, collision checks,
then the two `kv.set`s / `kv.del`. -/
def updateHandler (slug : String) (body : UpdateBody) (now : String) (st : KVStore) :
    UpdateResp × KVStore :=
  match updateValidationError body with
  | some msg => (.err 400 msg, st)
  | none =>
    match st.index with
    | none => (.err 500 "Simulator index not found", st)
    | some index =>
      let existingConfig := kvGet slug st.configs
      let isNew := existingConfig.isNone
      match body.metadata with
      | none => (.err 400 "Invalid slug (lowercase alphanumeric and hyphens only)", st)
      | some md =>
        match md.slug with
        | none => (.err 400 "Invalid slug (lowercase alphanumeric and hyphens only)", st)
        | some newSlug =>
          if newSlug == "" || !isValidSlug newSlug.toList then
            (.err 400 "Invalid slug (lowercase alphanumeric and hyphens only)", st)
          else
            let slugChanged := !isNew && newSlug != slug
            if slugChanged && (kvGet newSlug st.configs).isSome then
              (.err 400 "A simulator with this slug already exists", st)
            else if isNew && (kvGet newSlug st.configs).isSome then
              (.err 400 "A simulator with this slug already exists", st)
            else
              let config := buildConfig body md newSlug now existingConfig
              let configs1 := kvSet newSlug config st.configs
              let configs2 := if slugChanged then kvDel slug configs1 else configs1
              let newIndex := updatedIndexAfterUpsert index slug newSlug
                config.metadata isNew slugChanged
              (.ok config slugChanged (if slugChanged then some newSlug else none),
               { st with configs := configs2, index := some newIndex })

/-! ## The session-credential endpoint

Translated from the `/api/session` branch of the vite api plugin (the
same request body is built in both snapshots of the plugin): the handler
reads `{voice, instructions}` from the request, 500s when the server API
key is unconfigured, and otherwise posts the session-creation body below
to the provider.  The nested JSON keys `turn_detection.type` and
`input_audio_transcription.model` become the fields `tdType` and
`transcriptionModel`. -/

structure TurnDetection where
  tdType : String
  threshold : Rat
  prefix_padding_ms : Nat
  silence_duration_ms : Nat
deriving DecidableEq

structure SessionRequestBody where
  model : String
  voice : String
  instructions : String
  modalities : List String
  transcriptionModel : String
  turn_detection : TurnDetection
deriving DecidableEq

/-- The outbound provider request body built by the `/api/session`
handler:

  model: 'gpt-4o-realtime-preview',
  voice: voice || 'coral',
  instructions: instructions || '',
  modalities: ['audio', 'text'],
  input_audio_transcription: { model: 'gpt-4o-mini-transcribe' },
  turn_detection: { type: 'server_vad', threshold: 0.6,
                    prefix_padding_ms: 400, silence_duration_ms: 1200 }
-/
def sessionRequestBody (voice instructions : Option String) : SessionRequestBody :=
  { model := "gpt-4o-realtime-preview"
    voice := jsStrOr voice "coral"
    instructions := jsStrOr instructions ""
    modalities := ["audio", "text"]
    transcriptionModel := "gpt-4o-mini-transcribe"
    turn_detection :=
      { tdType := "server_vad", threshold := 0.6,
        prefix_padding_ms := 400, silence_duration_ms := 1200 } }

/-- The `/api/session` handler up to the outbound call: 500 when
`VITE_OPENAI_API_KEY` is unset, otherwise the request body it sends. -/
def sessionHandler (apiKeyConfigured : Bool) (voice instructions : Option String) :
    Except (Nat × String) SessionRequestBody :=
  if !apiKeyConfigured then .error (500, "OpenAI API key not configured")
  else .ok (sessionRequestBody voice instructions)

/-- The `RealtimeVoice` union from `api/simulators/[slug]/update.ts` — the
repository's enumeration of provider voices. -/
def REALTIME_VOICES : List String :=
  ["alloy", "ash", "ballad", "coral", "echo", "sage", "shimmer", "verse",
   "marin", "cedar"]

/-- Modelled from the spec: a persona override bundle (§4.4, glossary) —
an optional named override of voice, speech rate and a prompt fragment
selectable within one simulator profile.  The client library that holds
this type (`src/types.ts` / the WebRTC `src/lib/openai-realtime.ts`) is
not present under `src/`. -/
structure Persona where
  name : String
  voice : Option String
  speed : Option Rat
  prompt : String
deriving DecidableEq

/-- Modelled from the spec: the instructions composition of the
Session Configuration Composer (§4.4) — "Instructions text is the
profile's `systemPrompt`, optionally suffixed with the persona's prompt
fragment when a persona is active."  The WebRTC client code that performs
this composition before calling `/api/session` is not present under
`src/`; the separator is the model's choice. -/
def composeInstructions (cfg : SimulatorConfig) (persona : Option Persona) : String :=
  match persona with
  | none => cfg.systemPrompt
  | some p => cfg.systemPrompt ++ "\n\n" ++ p.prompt

/-- A simulator profile that passes the upsert handler's full-document
validation (the repository's notion of a valid stored profile). -/
def profileValid (c : SimulatorConfig) : Prop :=
  jsTrim c.agentName ≠ "" ∧ jsTrim c.donorName ≠ "" ∧
  0 < c.currentAmount ∧ c.currentAmount < c.targetAmount ∧
  (c.contactTone = "Formal" ∨ c.contactTone = "Casual" ∨ c.contactTone = "Friendly") ∧
  10 ≤ c.systemPrompt.length ∧
  jsTrim c.metadata.title ≠ "" ∧ jsTrim c.metadata.subtitle ≠ "" ∧
  isValidHexColor c.metadata.accentColor.toList = true ∧
  isValidSlug c.metadata.slug.toList = true

instance (c : SimulatorConfig) : Decidable (profileValid c) := by
  unfold profileValid; infer_instance

/-! ## The call state machine

Translated from `src/components/CallInterface.tsx`.  The component's
React state (`callState`, `error`, `isAgentSpeaking`, `config`,
`isLoading`) and refs (`connectionRef`, `speakingTimeoutRef`) form the
state; the `endCall` 2-second timer is a further pending-timer flag.
Each user action, connection callback, or timer expiry is one event,
processed atomically (single-threaded event loop).  The connection object
(`src/lib/openai-realtime.ts`, the WebRTC client) is not present under
`src/`; per spec §4.3 it reports failures through its callbacks
(`providerError` / `transportClosed`), emits no event after
`disconnect()`, and its `connect()` does not reject, so connection
callbacks are enabled exactly while `connectionRef.current` is non-null
and `answerCall`'s catch is reachable only through the synchronous
`config` null check. -/

inductive CallState where
  | idle | ringing | connecting | userSpeaking | agentSpeaking | conversation | ended
deriving DecidableEq

structure UIState where
  callState : CallState
  error : String
  isAgentSpeaking : Bool
  configLoaded : Bool
  isLoading : Bool
  connection : Bool
  speakingTimeout : Bool
  endedTimer : Bool
deriving DecidableEq

/-- Events driving the component: the mount-time config fetch resolving,
the four button handlers (each button is only rendered in the states
guarding it), the connection callbacks, and the two timers. -/
inductive UIEvent where
  | configFetchOk
  | configFetchErr (msg : String)
  | startCall
  | answerCall
  | declineCall
  | endCallClick
  | onConnectionEstablished
  | onAgentSpeaking
  | onAgentFinished
  | onError (msg : String)
  | speakingTimeoutFires
  | endedTimerFires
deriving DecidableEq

/-- `cleanup` from `CallInterface.tsx`: disconnect and null the
connection ref, clear the speaking timeout. -/
def cleanupUI (s : UIState) : UIState :=
  { s with connection := false, speakingTimeout := false }

/-- `endCall` from `CallInterface.tsx`: cleanup, show `ENDED`, and start
the 2-second timer back to `IDLE`. -/
def endCallUI (s : UIState) : UIState :=
  { cleanupUI s with callState := .ended, endedTimer := true }

/-- One event-loop step of `CallInterface`.  An event whose guard does
not hold (its button is not rendered, its timer is not pending, or its
connection no longer exists) leaves the state unchanged. -/
def stepUI (s : UIState) (e : UIEvent) : UIState :=
  match e with
  | .configFetchOk =>
    if s.isLoading then { s with configLoaded := true, isLoading := false } else s
  | .configFetchErr msg =>
    if s.isLoading then { s with error := msg, isLoading := false } else s
  | .startCall =>
    if s.callState = .idle ∧ ¬s.isLoading then
      { s with callState := .ringing, error := "" }
    else s
  | .answerCall =>
    if s.callState = .ringing then
      if s.configLoaded then
        -- setCallState(CONNECTING); connectionRef.current = new OpenAIRealtimeConnection(...)
        { s with callState := .connecting, connection := true }
      else
        -- setCallState(CONNECTING); throw; catch: setError(...); setCallState(IDLE)
        { s with callState := .idle, error := "Konfiguration nicht geladen" }
    else s
  | .declineCall =>
    if s.callState = .ringing then { s with callState := .idle } else s
  | .endCallClick =>
    if s.callState = .userSpeaking ∨ s.callState = .agentSpeaking ∨
        s.callState = .conversation then
      endCallUI s
    else s
  | .onConnectionEstablished =>
    if s.connection then { s with callState := .userSpeaking } else s
  | .onAgentSpeaking =>
    if s.connection then
      { s with isAgentSpeaking := true, callState := .agentSpeaking,
               speakingTimeout := true }
    else s
  | .onAgentFinished =>
    if s.connection then
      { s with isAgentSpeaking := false, callState := .conversation }
    else s
  | .onError msg =>
    if s.connection then endCallUI { s with error := msg } else s
  | .speakingTimeoutFires =>
    if s.speakingTimeout then
      { s with isAgentSpeaking := false, callState := .conversation,
               speakingTimeout := false }
    else s
  | .endedTimerFires =>
    if s.endedTimer then
      { s with callState := .idle, error := "", endedTimer := false }
    else s

/-- Component mount: `pre` is whether a `simulatorConfig` prop was passed
(then no fetch happens and `isLoading` starts false). -/
def initUI (pre : Bool) : UIState :=
  { callState := .idle, error := "", isAgentSpeaking := false,
    configLoaded := pre, isLoading := !pre, connection := false,
    speakingTimeout := false, endedTimer := false }

def runUI (pre : Bool) (es : List UIEvent) : UIState :=
  es.foldl stepUI (initUI pre)

/-- A state of the component reachable by some event sequence. -/
def UIReachable (s : UIState) : Prop :=
  ∃ pre es, runUI pre es = s

/-! ## The audio pipeline

Translated from `src/lib/audio-processor.ts` (`AudioProcessor`).  The
state keeps, besides the class fields, the list of all microphone tracks
ever acquired (browser-side objects; `true` = stopped), so that "no
acquired track open" is expressible after the class drops its
references.  `this.mediaStream` is the set of indices of its tracks;
`this.audioContext` is modelled as a flag because the code closes the
context exactly when it nulls the field.  Queued playback nodes carry no
observable state beyond membership in `audioQueue` (`source.stop()` on an
already-stopped node throws `InvalidStateError`, which `stopPlayback`'s
try/catch swallows, so stopping is total). -/

structure APState where
  tracks : List Bool
  mediaStream : Option (List Nat)
  audioContext : Bool
  scriptProcessor : Bool
  sourceNode : Bool
  audioQueue : List Bool
  nextStartTime : Rat
deriving DecidableEq

/-- A freshly constructed `AudioProcessor` (all fields null/empty). -/
def APState.init : APState :=
  { tracks := [], mediaStream := none, audioContext := false,
    scriptProcessor := false, sourceNode := false, audioQueue := [],
    nextStartTime := 0 }

/-- `requestMicrophoneAccess`: on grant, one mono audio track is acquired
and referenced by `this.mediaStream`; on denial the code throws
`'Mikrofonzugriff verweigert'`. -/
def requestMicrophoneAccess (granted : Bool) (s : APState) : Except String APState :=
  if granted then
    .ok { s with tracks := s.tracks ++ [false], mediaStream := some [s.tracks.length] }
  else
    .error "Mikrofonzugriff verweigert"

/-- `startCapture`: throws without a stream; otherwise creates the
`AudioContext`, source node and script processor. -/
def startCapture (s : APState) : Except String APState :=
  match s.mediaStream with
  | none => .error "Microphone access not granted"
  | some _ =>
    .ok { s with audioContext := true, scriptProcessor := true, sourceNode := true }

/-- Mark the tracks at the given indices stopped (`track.stop()` for each
track of the stream). -/
def stopTracks (idxs : List Nat) (tracks : List Bool) : List Bool :=
  idxs.foldl (fun t i => t.set i true) tracks

/-- `stopCapture`: disconnect and null the processor and source node,
close and null the context, stop every track of the stream and null the
stream.  Every branch is guarded by a null check, so a second call is a
no-op; nothing here throws. -/
def stopCapture (s : APState) : APState :=
  let s1 := { s with scriptProcessor := false, sourceNode := false }
  let s2 := if s1.audioContext then { s1 with audioContext := false } else s1
  match s2.mediaStream with
  | some idxs => { s2 with tracks := stopTracks idxs s2.tracks, mediaStream := none }
  | none => s2

/-- `playAudioDelta` at wall-clock time `tNow` with a decoded buffer of
duration `dur`: lazily create the playback context, schedule one source
node, and advance `nextStartTime`. -/
def playAudioDelta (tNow dur : Rat) (s : APState) : APState :=
  let nst0 := if s.audioContext then s.nextStartTime else tNow
  let startTime := max nst0 tNow
  { s with audioContext := true, audioQueue := s.audioQueue ++ [false],
           nextStartTime := startTime + dur }

/-- `stopPlayback`: stop every queued source node (the try/catch swallows
the `InvalidStateError` of already-stopped nodes), drop the queue, reset
the schedule. -/
def stopPlayback (s : APState) : APState :=
  { s with audioQueue := [], nextStartTime := 0 }

/-- `cleanup` from `audio-processor.ts`: `stopCapture(); stopPlayback();`
then close the context if still set (it never is after `stopCapture`). -/
def apCleanup (s : APState) : APState :=
  let s1 := stopCapture s
  let s2 := stopPlayback s1
  if s2.audioContext then { s2 with audioContext := false } else s2

/-- Processor states arising in a call session: any sequence of the class
operations, where a new acquisition or capture start happens only when
the corresponding field is still null (re-acquiring without stopping
first would leak the earlier stream/context into browser state the class
fields no longer reference; the call flow never does this). -/
inductive APReachable : APState → Prop
  | init : APReachable APState.init
  | request (s s' : APState) : APReachable s → s.mediaStream = none →
      requestMicrophoneAccess true s = .ok s' → APReachable s'
  | startCap (s s' : APState) : APReachable s → s.audioContext = false →
      startCapture s = .ok s' → APReachable s'
  | play (tNow dur : Rat) (s : APState) : APReachable s →
      APReachable (playAudioDelta tNow dur s)
  | stopCap (s : APState) : APReachable s → APReachable (stopCapture s)
  | stopPlay (s : APState) : APReachable s → APReachable (stopPlayback s)
  | cleanup (s : APState) : APReachable s → APReachable (apCleanup s)

/-! ## Index invariants (for the implicit claim about index-mutating
operations) -/

/-- The simulator-index invariant: entries have pairwise-distinct slugs,
and a non-empty index's `defaultSlug` is the slug of one of its entries. -/
def IndexInv (idx : SimulatorIndex) : Prop :=
  (idx.simulators.map SimulatorMetadata.slug).Nodup ∧
  (idx.simulators ≠ [] →
    idx.defaultSlug ∈ idx.simulators.map SimulatorMetadata.slug)

instance (idx : SimulatorIndex) : Decidable (IndexInv idx) := by
  unfold IndexInv; infer_instance

/-- Store/index consistency: every index entry has a stored config and
every stored config key appears in the index.  This holds in every store
the handlers themselves build (they always write the config and the index
entry together). -/
def StoreConsistent (st : KVStore) (idx : SimulatorIndex) : Prop :=
  (∀ m ∈ idx.simulators, (kvGet m.slug st.configs).isSome = true) ∧
  (∀ p ∈ st.configs, p.1 ∈ idx.simulators.map SimulatorMetadata.slug)

instance (st : KVStore) (idx : SimulatorIndex) : Decidable (StoreConsistent st idx) := by
  unfold StoreConsistent; infer_instance

/-! ## Concrete example data (used by witnesses and counterexamples) -/

/-- A concrete metadata record. -/
def exampleMetadata : SimulatorMetadata :=
  { slug := "drk", title := "DRK", subtitle := "Training",
    accentColor := "#C41E3A", createdAt := "t0", updatedAt := "t0" }

/-- A concrete valid simulator config. -/
def exampleConfig : SimulatorConfig :=
  { agentName := "Sarah", donorName := "Max Mustermann", currentAmount := 20,
    targetAmount := 35, donationHistory := "2 Jahre", contactTone := "Friendly",
    additionalInstructions := "", voice := "marin",
    systemPrompt := "Du bist Sarah, DRK.", metadata := exampleMetadata }

/-- A concrete one-simulator store whose index and configs agree. -/
def exampleStore1 : KVStore :=
  { configs := [("drk", exampleConfig)],
    index := some { simulators := [exampleMetadata], defaultSlug := "drk" },
    oldConfig := none }

/-- The upsert body matching `exampleConfig` (used by witnesses). -/
def exampleBody : UpdateBody :=
  { agentName := some "Sarah", donorName := some "Max",
    currentAmount := some 20, targetAmount := some 35,
    donationHistory := some "2 Jahre", contactTone := some "Friendly",
    additionalInstructions := none, voice := some "marin",
    systemPrompt := some "Du bist Sarah, DRK.",
    metadata := some { slug := some "drk", title := some "DRK",
                       subtitle := some "Training",
                       accentColor := some "#C41E3A" } }

/-- `exampleConfig` as rebuilt by an upsert at time `t1` (donor name from
`exampleBody`, creation time preserved, update time refreshed). -/
def exampleConfigT1 : SimulatorConfig :=
  { exampleConfig with
    donorName := "Max",
    metadata := { exampleMetadata with updatedAt := "t1" } }

/-- The store after upserting `exampleBody` into `exampleStore1`. -/
def exampleStore1After : KVStore :=
  { configs := [("drk", exampleConfigT1)],
    index := some { simulators := [{ exampleMetadata with updatedAt := "t1" }],
                    defaultSlug := "drk" },
    oldConfig := none }

/-! # Theorems -/

/-! ## Slug lemmas -/

theorem isSlugChar_of_alnum {c : Char} (h : isLowerAlnum c = true) :
    isSlugChar c = true := by
  simp [isSlugChar, h]

theorem alnum_ne_hyphen {c : Char} (h : isLowerAlnum c = true) : c ≠ '-' := by
  intro hc
  subst hc
  exact absurd h (by decide)

theorem alnum_of_slugChar_ne_hyphen {c : Char} (h : isSlugChar c = true)
    (hne : c ≠ '-') : isLowerAlnum c = true := by
  simp [isSlugChar] at h
  rcases h with h | h
  · exact h
  · exact absurd h hne

/-- Characterization of the code's `isValidSlug`: a nonempty string of at
most 50 slug characters whose first and last characters are alphanumeric. -/
theorem isValidSlug_eq_true_iff (l : List Char) :
    isValidSlug l = true ↔
      l ≠ [] ∧ l.length ≤ 50 ∧ (∀ c ∈ l, isSlugChar c = true) ∧
      (∃ c, l.head? = some c ∧ isLowerAlnum c = true) ∧
      (∃ d, l.getLast? = some d ∧ isLowerAlnum d = true) := by
  match l with
  | [] => simp [isValidSlug]
  | [c] =>
    constructor
    · intro h
      have hc : isLowerAlnum c = true := by simpa [isValidSlug] using h
      refine ⟨by simp, by simp, ?_, ⟨c, rfl, hc⟩, ⟨c, by simp, hc⟩⟩
      intro x hx
      simp at hx
      subst hx
      exact isSlugChar_of_alnum hc
    · rintro ⟨-, -, -, -, ⟨d, hd, hd2⟩⟩
      have hdc : d = c := by
        simp at hd
        exact hd.symm
      subst hdc
      simpa [isValidSlug] using hd2
  | c :: d :: rest =>
    have hne : d :: rest ≠ [] := by simp
    have hsplit : (d :: rest).dropLast ++ [(d :: rest).getLast hne] = d :: rest :=
      List.dropLast_append_getLast hne
    have hlast? : (d :: rest).getLast? = some ((d :: rest).getLast hne) :=
      List.getLast?_eq_getLast _ hne
    simp only [isValidSlug, Bool.and_eq_true, decide_eq_true_eq, List.all_eq_true,
      List.length_cons, List.head?_cons, List.getLast?_cons_cons, hlast?]
    constructor
    · rintro ⟨⟨⟨hc, hlen⟩, hmid⟩, hlastmatch⟩
      have hlastalnum : isLowerAlnum ((d :: rest).getLast hne) = true := hlastmatch
      refine ⟨by simp, by simp; omega, ?_, ⟨c, rfl, hc⟩,
        ⟨(d :: rest).getLast hne, rfl, hlastalnum⟩⟩
      intro x hx
      rcases List.mem_cons.mp hx with hx1 | hx2
      · subst hx1
        exact isSlugChar_of_alnum hc
      · have : x ∈ (d :: rest).dropLast ++ [(d :: rest).getLast hne] := by
          rw [hsplit]
          exact hx2
        rcases List.mem_append.mp this with h1 | h2
        · exact hmid x h1
        · have hx3 : x = (d :: rest).getLast hne := by simpa using h2
          subst hx3
          exact isSlugChar_of_alnum hlastalnum
    · rintro ⟨-, hlen, hall, ⟨c', hc', hc2⟩, ⟨e, he, he2⟩⟩
      have hcc : c' = c := by
        have := hc'
        simp at this
        exact this.symm
      subst hcc
      have hgl : (d :: rest).getLast hne = e := by
        simpa using he
      refine ⟨⟨⟨hc2, ?_⟩, ?_⟩, ?_⟩
      · simp at hlen
        omega
      · intro x hx
        have hx2 : x ∈ d :: rest := List.dropLast_subset _ hx
        exact hall x (List.mem_cons_of_mem _ hx2)
      · rw [hgl]
        exact he2

theorem specSlugMatch_eq_true_iff (l : List Char) :
    specSlugMatch l = true ↔
      ∃ c rest, l = c :: rest ∧ isLowerAlnum c = true ∧
        ∀ x ∈ rest, isSlugChar x = true := by
  match l with
  | [] => simp [specSlugMatch]
  | c :: rest =>
    simp only [specSlugMatch, Bool.and_eq_true, List.all_eq_true]
    constructor
    · rintro ⟨hc, hall⟩
      exact ⟨c, rest, rfl, hc, hall⟩
    · rintro ⟨c', rest', heq, hc, hall⟩
      cases heq
      exact ⟨hc, hall⟩

/-- Claim C7, counterexample: on the two-character string `a-` the code's
`isValidSlug` (which requires the final character to be alphanumeric)
disagrees with the spec's regex `^[a-z0-9][a-z0-9-]*[a-z0-9]?$` (whose
`[a-z0-9-]*` can absorb the trailing hyphen). -/
theorem C7_counterexample : isValidSlug "a-".toList ≠ specSlugMatch "a-".toList := by
  decide

/-- Claim C7, amended: `isValidSlug` accepts exactly the strings that
match the spec's regex AND are at most 50 characters long AND end in an
alphanumeric character (the spec regex misses the 50-character cap and
accepts a trailing hyphen). -/
theorem C7_isValidSlug_refines_spec_regex (l : List Char) :
    isValidSlug l = true ↔
      specSlugMatch l = true ∧ l.length ≤ 50 ∧
      ∃ d, l.getLast? = some d ∧ isLowerAlnum d = true := by
  rw [isValidSlug_eq_true_iff, specSlugMatch_eq_true_iff]
  constructor
  · rintro ⟨hne, hlen, hall, ⟨c, hc, hc2⟩, hlast⟩
    obtain ⟨c', rest', heq⟩ := List.exists_cons_of_ne_nil hne
    subst heq
    have hcc : c' = c := by
      have := hc
      simp at this
      exact this
    subst hcc
    refine ⟨⟨c', rest', rfl, hc2, ?_⟩, hlen, hlast⟩
    intro x hx
    exact hall x (List.mem_cons_of_mem _ hx)
  · rintro ⟨⟨c, rest, heq, hc, hall⟩, hlen, hlast⟩
    subst heq
    refine ⟨by simp, hlen, ?_, ⟨c, rfl, hc⟩, hlast⟩
    intro x hx
    rcases List.mem_cons.mp hx with hx1 | hx2
    · subst hx1
      exact isSlugChar_of_alnum hc
    · exact hall x hx2

/-! ## Lemmas on the `toSlug` pipeline -/

theorem collapseRunsAux_all_slugChar (b : Bool) (l : List Char) :
    ∀ c ∈ collapseRunsAux b l, isSlugChar c = true := by
  induction l generalizing b with
  | nil => simp [collapseRunsAux]
  | cons c rest ih =>
    intro x hx
    simp only [collapseRunsAux] at hx
    by_cases hc : isLowerAlnum c = true
    · rw [if_pos hc] at hx
      rcases List.mem_cons.mp hx with h1 | h2
      · subst h1
        exact isSlugChar_of_alnum hc
      · exact ih false x h2
    · rw [if_neg hc] at hx
      cases b with
      | true =>
        rw [if_pos rfl] at hx
        exact ih true x hx
      | false =>
        rw [if_neg (by simp)] at hx
        rcases List.mem_cons.mp hx with h1 | h2
        · subst h1
          decide
        · exact ih true x h2

theorem collapseRunsAux_true_head (l : List Char) :
    ∀ c, (collapseRunsAux true l).head? = some c → isLowerAlnum c = true := by
  induction l with
  | nil => simp [collapseRunsAux]
  | cons d rest ih =>
    intro c hc
    simp only [collapseRunsAux] at hc
    by_cases hd : isLowerAlnum d = true
    · rw [if_pos hd] at hc
      simp at hc
      subst hc
      exact hd
    · rw [if_neg hd] at hc
      simp only [if_true] at hc
      exact ih c hc

theorem collapseRunsAux_chain (b : Bool) (l : List Char) :
    List.Chain' (fun a b' => ¬(a = '-' ∧ b' = '-')) (collapseRunsAux b l) := by
  induction l generalizing b with
  | nil => simp [collapseRunsAux]
  | cons c rest ih =>
    simp only [collapseRunsAux]
    by_cases hc : isLowerAlnum c = true
    · rw [if_pos hc, List.chain'_cons']
      refine ⟨?_, ih false⟩
      intro y _
      rintro ⟨h1, -⟩
      exact alnum_ne_hyphen hc h1
    · rw [if_neg hc]
      cases b with
      | true =>
        rw [if_pos rfl]
        exact ih true
      | false =>
        rw [if_neg (by simp), List.chain'_cons']
        refine ⟨?_, ih true⟩
        intro y hy
        rintro ⟨-, h2⟩
        have := collapseRunsAux_true_head rest y hy
        subst h2
        exact absurd this (by decide)

/-- On a list of slug characters with no two adjacent hyphens, removing a
leading hyphen keeps both properties and leaves a list whose head (if any)
is alphanumeric. -/
theorem stripLeadingHyphen_props (m : List Char)
    (hall : ∀ c ∈ m, isSlugChar c = true)
    (hchain : List.Chain' (fun a b => ¬(a = '-' ∧ b = '-')) m) :
    (∀ c ∈ stripLeadingHyphen m, isSlugChar c = true) ∧
    List.Chain' (fun a b => ¬(a = '-' ∧ b = '-')) (stripLeadingHyphen m) ∧
    (∀ c, (stripLeadingHyphen m).head? = some c → isLowerAlnum c = true) := by
  match m with
  | [] => simp [stripLeadingHyphen]
  | c :: rest =>
    by_cases hc : c = '-'
    · subst hc
      have hred : stripLeadingHyphen ('-' :: rest) = rest := rfl
      rw [hred]
      refine ⟨fun x hx => hall x (List.mem_cons_of_mem _ hx), hchain.tail, ?_⟩
      intro y hy
      have hrel := (List.chain'_cons'.mp hchain).1 y hy
      have hyne : y ≠ '-' := fun h => hrel ⟨rfl, h⟩
      have hyin : y ∈ rest := by
        cases rest with
        | nil => simp at hy
        | cons a t =>
          simp at hy
          subst hy
          exact List.mem_cons_self a t
      exact alnum_of_slugChar_ne_hyphen (hall y (List.mem_cons_of_mem _ hyin)) hyne
    · have hred : stripLeadingHyphen (c :: rest) = c :: rest := by
        unfold stripLeadingHyphen
        split
        · next heq =>
          injection heq with h1 h2
          simp_all
        · rfl
      rw [hred]
      refine ⟨hall, hchain, ?_⟩
      intro y hy
      simp only [List.head?_cons, Option.some.injEq] at hy
      rw [← hy]
      exact alnum_of_slugChar_ne_hyphen (hall c (List.mem_cons_self _ _)) hc

/-- On a list of slug characters with no two adjacent hyphens and an
alphanumeric head, removing a trailing hyphen keeps everything and leaves
a list whose last character (if any) is alphanumeric. -/
theorem stripTrailingHyphen_props (m : List Char)
    (hall : ∀ c ∈ m, isSlugChar c = true)
    (hchain : List.Chain' (fun a b => ¬(a = '-' ∧ b = '-')) m)
    (hhead : ∀ c, m.head? = some c → isLowerAlnum c = true) :
    (∀ c ∈ stripTrailingHyphen m, isSlugChar c = true) ∧
    List.Chain' (fun a b => ¬(a = '-' ∧ b = '-')) (stripTrailingHyphen m) ∧
    (∀ c, (stripTrailingHyphen m).head? = some c → isLowerAlnum c = true) ∧
    (∀ c, (stripTrailingHyphen m).getLast? = some c → isLowerAlnum c = true) := by
  cases hlast : m.getLast? with
  | none =>
    have hm : m = [] := by
      cases m with
      | nil => rfl
      | cons a t => rw [List.getLast?_eq_getLast _ (by simp)] at hlast; cases hlast
    subst hm
    simp [stripTrailingHyphen]
  | some z =>
    have hmne : m ≠ [] := by
      intro h
      subst h
      simp at hlast
    have hz2 : m.getLast hmne = z := by
      rw [List.getLast?_eq_getLast _ hmne] at hlast
      injection hlast
    by_cases hz : z = '-'
    · subst hz
      have hred : stripTrailingHyphen m = m.dropLast := by
        unfold stripTrailingHyphen
        rw [hlast]
        rfl
      rw [hred]
      have hsplit : m.dropLast ++ ['-'] = m := by
        conv_rhs => rw [← List.dropLast_append_getLast hmne]
        rw [hz2]
      refine ⟨fun x hx => hall x (List.dropLast_subset _ hx), hchain.init, ?_, ?_⟩
      · intro y hy
        rw [List.head?_dropLast] at hy
        by_cases hlen : 1 < m.length
        · rw [if_pos hlen] at hy
          exact hhead y hy
        · rw [if_neg hlen] at hy
          cases hy
      · intro y hy
        have hch2 : List.Chain' (fun a b => ¬(a = '-' ∧ b = '-')) (m.dropLast ++ ['-']) := by
          rw [hsplit]
          exact hchain
        have := (List.chain'_append.mp hch2).2.2 y hy '-' rfl
        have hyne : y ≠ '-' := fun h => this ⟨h, rfl⟩
        have hyin : y ∈ m := by
          apply List.dropLast_subset
          exact List.mem_of_mem_getLast? hy
        exact alnum_of_slugChar_ne_hyphen (hall y hyin) hyne
    · have hred : stripTrailingHyphen m = m := by
        unfold stripTrailingHyphen
        rw [hlast]
        split
        · next heq =>
          injection heq with h1
          exact absurd h1 hz
        · rfl
      rw [hred]
      refine ⟨hall, hchain, hhead, ?_⟩
      intro y hy
      rw [hlast] at hy
      injection hy with hy
      rw [← hy]
      have hyin : z ∈ m := by
        rw [← hz2]
        exact List.getLast_mem hmne
      exact alnum_of_slugChar_ne_hyphen (hall z hyin) hz

/-- Facts about `List.take 50` of a list of slug characters with no two
adjacent hyphens whose first and last characters are alphanumeric: the
result is at most 50 characters and is empty, a valid slug, or a
50-character truncation ending in a hyphen whose first 49 characters form
a valid slug. -/
theorem take50_slug_props (r0 : List Char)
    (hall0 : ∀ c ∈ r0, isSlugChar c = true)
    (hchain0 : List.Chain' (fun a b => ¬(a = '-' ∧ b = '-')) r0)
    (hhead0 : ∀ c, r0.head? = some c → isLowerAlnum c = true)
    (hlast0 : ∀ c, r0.getLast? = some c → isLowerAlnum c = true) :
    (r0.take 50).length ≤ 50 ∧
    (r0.take 50 = [] ∨ isValidSlug (r0.take 50) = true ∨
      ((r0.take 50).length = 50 ∧ (r0.take 50).getLast? = some '-' ∧
        isValidSlug (r0.take 50).dropLast = true)) := by
  refine ⟨by rw [List.length_take]; omega, ?_⟩
  by_cases hle : r0.length ≤ 50
  · rw [List.take_of_length_le hle]
    cases hr : r0 with
    | nil => exact Or.inl rfl
    | cons a t =>
      subst hr
      right; left
      rw [isValidSlug_eq_true_iff]
      have hne : a :: t ≠ [] := by simp
      refine ⟨hne, hle, hall0, ⟨a, rfl, hhead0 a rfl⟩,
        ⟨(a :: t).getLast hne, List.getLast?_eq_getLast _ hne,
         hlast0 _ (List.getLast?_eq_getLast _ hne)⟩⟩
  · push_neg at hle
    have h49 : 49 < r0.length := by omega
    have h48 : 48 < r0.length := by omega
    have hlen50 : (r0.take 50).length = 50 := by
      rw [List.length_take]; omega
    have hlen49 : (r0.take 49).length = 49 := by
      rw [List.length_take]; omega
    have hr0ne : r0 ≠ [] := by
      intro h; subst h; simp at hle
    obtain ⟨a, t, har⟩ := List.exists_cons_of_ne_nil hr0ne
    have hheadr0 : r0.head? = some a := by rw [har]; rfl
    have hga : isLowerAlnum a = true := hhead0 a hheadr0
    have htake50_last : (r0.take 50).getLast? = some (r0[49]) := by
      rw [List.getLast?_eq_getElem?, hlen50]
      rw [List.getElem?_eq_getElem (by rw [hlen50]; omega)]
      congr 1
      exact List.getElem_take r0
    have htake49_last : (r0.take 49).getLast? = some (r0[48]) := by
      rw [List.getLast?_eq_getElem?, hlen49]
      rw [List.getElem?_eq_getElem (by rw [hlen49]; omega)]
      congr 1
      exact List.getElem_take r0
    have htake50_head : (r0.take 50).head? = some a := by
      rw [List.head?_take, if_neg (by omega)]
      exact hheadr0
    have htake49_head : (r0.take 49).head? = some a := by
      rw [List.head?_take, if_neg (by omega)]
      exact hheadr0
    by_cases halnum : isLowerAlnum (r0[49]) = true
    · right; left
      rw [isValidSlug_eq_true_iff]
      refine ⟨by intro h; rw [h] at hlen50; simp at hlen50, by omega,
        fun c hc => hall0 c (List.take_subset _ _ hc),
        ⟨a, htake50_head, hga⟩, ⟨r0[49], htake50_last, halnum⟩⟩
    · have hhyph : r0[49] = '-' := by
        by_contra hne
        exact halnum (alnum_of_slugChar_ne_hyphen
          (hall0 _ (List.getElem_mem h49)) hne)
      right; right
      have hdrop : (r0.take 50).dropLast = r0.take 49 := by
        rw [List.dropLast_take (by omega)]
      refine ⟨hlen50, by rw [htake50_last, hhyph], ?_⟩
      rw [hdrop, isValidSlug_eq_true_iff]
      have h48alnum : isLowerAlnum (r0[48]) = true := by
        have hrel := List.chain'_iff_get.mp hchain0 48 (by omega)
        simp only [List.get_eq_getElem] at hrel
        have h48ne : r0[48] ≠ '-' := by
          intro h
          exact hrel ⟨h, hhyph⟩
        exact alnum_of_slugChar_ne_hyphen (hall0 _ (List.getElem_mem h48)) h48ne
      refine ⟨by intro h; rw [h] at hlen49; simp at hlen49, by omega,
        fun c hc => hall0 c (List.take_subset _ _ hc),
        ⟨a, htake49_head, hga⟩, ⟨r0[48], htake49_last, h48alnum⟩⟩

/-- Claim C10, counterexample: for the 51-character input of 49 `a`s
followed by `" b"`, `toSlug` yields 49 `a`s and a hyphen — the
50-character slice cuts right after the hyphen that replaced the space,
so the result is neither empty nor accepted by `isValidSlug` (it ends in
a hyphen). -/
theorem C10_counterexample :
    ¬(toSlug (List.replicate 49 'a' ++ [' ', 'b']) = [] ∨
      isValidSlug (toSlug (List.replicate 49 'a' ++ [' ', 'b'])) = true) := by
  decide

/-- Claim C10, amended: for every input string, `toSlug` returns a string
of at most 50 characters that never starts with a hyphen, and is either
empty, or a slug accepted by `isValidSlug`, or — when the 50-character
truncation cuts immediately after a hyphen — a 50-character string ending
in a hyphen whose first 49 characters are a valid slug. -/
theorem C10_toSlug_valid_or_truncated (l : List Char) :
    (toSlug l).length ≤ 50 ∧
    (∀ c, (toSlug l).head? = some c → isLowerAlnum c = true) ∧
    (toSlug l = [] ∨ isValidSlug (toSlug l) = true ∨
      ((toSlug l).length = 50 ∧ (toSlug l).getLast? = some '-' ∧
        isValidSlug (toSlug l).dropLast = true)) := by
  have hm_all : ∀ c ∈ collapseRuns ((l.map jsToLower).flatMap umlautExpand),
      isSlugChar c = true :=
    collapseRunsAux_all_slugChar false _
  have hm_chain := collapseRunsAux_chain false ((l.map jsToLower).flatMap umlautExpand)
  obtain ⟨h1, h2, h3⟩ := stripLeadingHyphen_props _ hm_all hm_chain
  obtain ⟨h4, h5, h6, h7⟩ := stripTrailingHyphen_props _ h1 h2 h3
  obtain ⟨hlen, hdisj⟩ := take50_slug_props _ h4 h5 h6 h7
  refine ⟨hlen, ?_, hdisj⟩
  intro c hc
  have hc2 : (stripTrailingHyphen (stripLeadingHyphen
      (collapseRuns ((l.map jsToLower).flatMap umlautExpand)))).head? = some c := by
    have := hc
    rw [show toSlug l = List.take 50 (stripTrailingHyphen (stripLeadingHyphen
      (collapseRuns ((l.map jsToLower).flatMap umlautExpand)))) from rfl] at this
    rw [List.head?_take, if_neg (by omega)] at this
    exact this
  exact h6 c hc2

/-! ## Session-configuration claims -/

theorem composeInstructions_length (cfg : SimulatorConfig) (persona : Option Persona) :
    cfg.systemPrompt.length ≤ (composeInstructions cfg persona).length := by
  cases persona with
  | none => simp [composeInstructions]
  | some p =>
    simp only [composeInstructions, String.length_append]
    omega

theorem composeInstructions_ne_empty (cfg : SimulatorConfig) (persona : Option Persona)
    (h : 10 ≤ cfg.systemPrompt.length) : composeInstructions cfg persona ≠ "" := by
  intro heq
  have hlen := composeInstructions_length cfg persona
  rw [heq] at hlen
  have h0 : ("" : String).length = 0 := rfl
  omega

/-- Claim C3: for every valid simulator profile and any active persona,
the session configuration the `/api/session` handler sends to the speech
provider carries the invariant turn-detection constants (threshold `0.6`,
prefix padding `400` ms, trailing-silence duration `1200` ms), and its
instructions text is exactly the composed instructions — the profile's
`systemPrompt`, optionally suffixed with the persona's prompt fragment —
independent of every other profile field (the voice argument is
universally quantified; the turn-detection record does not mention the
profile at all). -/
theorem C3_session_config_constants (cfg : SimulatorConfig) (persona : Option Persona)
    (voiceArg : Option String) (hvalid : profileValid cfg) :
    (sessionRequestBody voiceArg (some (composeInstructions cfg persona))).turn_detection =
      { tdType := "server_vad", threshold := 0.6,
        prefix_padding_ms := 400, silence_duration_ms := 1200 } ∧
    (sessionRequestBody voiceArg (some (composeInstructions cfg persona))).instructions =
      composeInstructions cfg persona := by
  obtain ⟨-, -, -, -, -, hsp, -⟩ := hvalid
  refine ⟨rfl, ?_⟩
  have hne : composeInstructions cfg persona ≠ "" :=
    composeInstructions_ne_empty cfg persona hsp
  simp [sessionRequestBody, jsStrOr, hne]

/-- Witness for C3 at a concrete valid profile with an active persona. -/
theorem C3_session_config_constants_witness :
    (sessionRequestBody (some "marin")
        (some (composeInstructions exampleConfig
          (some { name := "Oma", voice := none, speed := none,
                  prompt := "Sprich langsam." })))).instructions =
      composeInstructions exampleConfig
        (some { name := "Oma", voice := none, speed := none,
                prompt := "Sprich langsam." }) :=
  (C3_session_config_constants _ _ _ (by decide)).2

/-- Claim C6, counterexample: an invalid (non-empty, not in the
provider-voice enumeration) voice value does NOT fall back to the default
voice — `voice || 'coral'` falls back only for a missing or empty value,
so `"not-a-voice"` is passed through to the provider unchanged. -/
theorem C6_counterexample :
    "not-a-voice" ∉ REALTIME_VOICES ∧
    (sessionRequestBody (some "not-a-voice") none).voice = "not-a-voice" ∧
    (sessionRequestBody (some "not-a-voice") none).voice ≠ "coral" := by
  refine ⟨by decide, rfl, by decide⟩

/-- Claim C6, amended: a missing or empty voice value falls back to the
default voice `"coral"` (a non-empty value — valid or not — is passed
through unchanged), a missing or empty instructions value falls back to
the empty string rather than being an error, and with the API key
configured the handler never fails on account of `voice` or
`instructions`. -/
theorem C6_session_fallbacks (voice instructions : Option String) :
    ((voice = none ∨ voice = some "") →
      (sessionRequestBody voice instructions).voice = "coral") ∧
    (∀ s, voice = some s → s ≠ "" →
      (sessionRequestBody voice instructions).voice = s) ∧
    ((instructions = none ∨ instructions = some "") →
      (sessionRequestBody voice instructions).instructions = "") ∧
    sessionHandler true voice instructions =
      .ok (sessionRequestBody voice instructions) := by
  refine ⟨?_, ?_, ?_, rfl⟩
  · rintro (rfl | rfl) <;> rfl
  · rintro s rfl hs
    simp [sessionRequestBody, jsStrOr, hs]
  · rintro (rfl | rfl) <;> rfl

/-- Witness for C6 at concrete inputs: empty voice and missing
instructions fall back. -/
theorem C6_session_fallbacks_witness :
    (sessionRequestBody (some "") none).voice = "coral" ∧
    (sessionRequestBody (some "") none).instructions = "" :=
  ⟨(C6_session_fallbacks (some "") none).1 (Or.inr rfl),
   (C6_session_fallbacks (some "") none).2.2.1 (Or.inl rfl)⟩

/-! ## Upsert validation claims -/

/-- Every error response of the upsert handler leaves the store untouched
(all `kv.set`/`kv.del` calls come after every check). -/
theorem updateHandler_err_store_unchanged (slug : String) (body : UpdateBody)
    (now : String) (st : KVStore) :
    ∀ status msg st2, updateHandler slug body now st = (.err status msg, st2) →
      st2 = st := by
  intro status msg st2 h
  unfold updateHandler at h
  repeat' first
  | split at h
  | dsimp only at h
  all_goals
    first
    | (injection h with h1 h2; exact h2.symm)
    | (injection h with h1 h2; injection h1)

/-- Claim C4: the upsert rejects, with a 400 and a field-identifying
message, every body whose `currentAmount` is absent or non-positive or
whose `targetAmount` is absent or not strictly greater than
`currentAmount`; and every validation rejection (any error response)
happens before any persistence — the store is returned unmodified. -/
theorem C4_upsert_amount_validation (slug : String) (body : UpdateBody)
    (now : String) (st : KVStore) :
    ((body.currentAmount = none ∨
      (∃ c, body.currentAmount = some c ∧ c ≤ 0) ∨
      (∃ c, body.currentAmount = some c ∧ 0 < c ∧
        (body.targetAmount = none ∨ ∃ t, body.targetAmount = some t ∧ t ≤ c))) →
      ∃ msg, msg ∈ updateValidationMessages ∧
        updateHandler slug body now st = (.err 400 msg, st)) ∧
    (∀ status msg st2, updateHandler slug body now st = (.err status msg, st2) →
      st2 = st) := by
  refine ⟨?_, updateHandler_err_store_unchanged slug body now st⟩
  intro hbad
  by_cases ha : blankStr body.agentName = true
  · exact ⟨"Agent name is required", by decide,
      by simp [updateHandler, updateValidationError, ha]⟩
  · by_cases hd : blankStr body.donorName = true
    · exact ⟨"Donor name is required", by decide,
        by simp [updateHandler, updateValidationError, ha, hd]⟩
    · rcases hbad with h | ⟨c, hc, hcle⟩ | ⟨c, hc, hcpos, htgt⟩
      · exact ⟨"Current amount must be positive", by decide,
          by simp [updateHandler, updateValidationError, ha, hd, h]⟩
      · exact ⟨"Current amount must be positive", by decide,
          by simp [updateHandler, updateValidationError, ha, hd, hc, hcle]⟩
      · have hnotle : ¬(c ≤ 0) := by omega
        rcases htgt with ht | ⟨t, ht, htle⟩
        · exact ⟨"Target amount must be greater than current amount", by decide,
            by simp [updateHandler, updateValidationError, ha, hd, hc, hnotle, ht]⟩
        · exact ⟨"Target amount must be greater than current amount", by decide,
            by simp [updateHandler, updateValidationError, ha, hd, hc, hnotle, ht, htle]⟩

/-- Witness for C4: the body with `currentAmount = 20, targetAmount = 20`
(all other fields valid) is rejected with the target-amount message and
an unchanged store; the same body with `targetAmount = 35` passes the
amount checks. -/
theorem C4_upsert_amount_validation_witness :
    (∃ msg, msg ∈ updateValidationMessages ∧
      updateHandler "drk"
        { agentName := some "Sarah", donorName := some "Max",
          currentAmount := some 20, targetAmount := some 20,
          donationHistory := some "2 Jahre", contactTone := some "Friendly",
          additionalInstructions := none, voice := some "marin",
          systemPrompt := some "Du bist Sarah, DRK.",
          metadata := some { slug := some "drk", title := some "DRK",
                             subtitle := some "Training",
                             accentColor := some "#C41E3A" } }
        "t0" { configs := [], index := none, oldConfig := none } =
        (.err 400 msg, { configs := [], index := none, oldConfig := none })) ∧
    updateValidationError
        { agentName := some "Sarah", donorName := some "Max",
          currentAmount := some 20, targetAmount := some 35,
          donationHistory := some "2 Jahre", contactTone := some "Friendly",
          additionalInstructions := none, voice := some "marin",
          systemPrompt := some "Du bist Sarah, DRK.",
          metadata := some { slug := some "drk", title := some "DRK",
                             subtitle := some "Training",
                             accentColor := some "#C41E3A" } } = none :=
  ⟨(C4_upsert_amount_validation "drk" _ "t0" _).1
      (Or.inr (Or.inr ⟨20, rfl, by decide, Or.inr ⟨20, rfl, by decide⟩⟩)),
   by decide⟩

/-! ## Delete-handler claims -/

/-- Claim C5: the delete-by-slug handler refuses (400, store unmodified)
to remove the last remaining simulator; and whenever it succeeds after
deleting the profile whose slug was the index's `defaultSlug`, the new
index's `defaultSlug` is the slug of one of the remaining entries. -/
theorem C5_delete_last_and_default (st : KVStore) (slug : String) :
    (∀ idx, st.index = some idx →
      idx.simulators.any (fun s => s.slug == slug) = true →
      idx.simulators.length ≤ 1 →
      deleteHandler slug st = (.err 400 "Cannot delete the last simulator", st)) ∧
    (∀ deleted newDef st2, deleteHandler slug st = (.ok deleted newDef, st2) →
      ∀ idx, st.index = some idx → idx.defaultSlug = slug →
        ∃ idx2, st2.index = some idx2 ∧
          idx2.defaultSlug ∈ idx2.simulators.map SimulatorMetadata.slug) := by
  constructor
  · intro idx hidx hany hlen
    simp [deleteHandler, hidx, hany, hlen]
  · intro deleted newDef st2 h idx hidx hdef
    by_cases hany : idx.simulators.any (fun s => s.slug == slug) = true
    case neg =>
      have hany2 : idx.simulators.any (fun s => s.slug == slug) = false := by
        simpa using hany
      have hred : deleteHandler slug st = (.err 404 "Simulator not found", st) := by
        simp [deleteHandler, hidx, hany2]
      rw [hred] at h
      injection h with h1 h2
      injection h1
    case pos =>
    by_cases hlen : idx.simulators.length ≤ 1
    case pos =>
      have hred : deleteHandler slug st =
          (.err 400 "Cannot delete the last simulator", st) := by
        simp [deleteHandler, hidx, hany, hlen]
      rw [hred] at h
      injection h with h1 h2
      injection h1
    case neg =>
    cases hhead : (idx.simulators.filter (fun s => s.slug != slug)).head? with
    | none =>
      have hred : deleteHandler slug st =
          (.err 500 "Failed to delete simulator", st) := by
        simp [deleteHandler, hidx, hany, hlen, hdef, hhead]
      rw [hred] at h
      injection h with h1 h2
      injection h1
    | some m =>
      have hred : deleteHandler slug st =
          (.ok slug (some m.slug),
            { st with configs := kvDel slug st.configs,
                      index := some { simulators :=
                                        idx.simulators.filter (fun s => s.slug != slug),
                                      defaultSlug := m.slug } }) := by
        simp [deleteHandler, hidx, hany, hlen, hdef, hhead]
      rw [hred] at h
      injection h with h1 h2
      exact ⟨_, by rw [← h2], List.mem_map_of_mem _ (List.mem_of_mem_head? hhead)⟩

/-- Witness for C5: deleting the only simulator of a one-entry store is
refused with the last-simulator error and an unchanged store. -/
theorem C5_delete_last_and_default_witness :
    deleteHandler "drk" exampleStore1 =
      (.err 400 "Cannot delete the last simulator", exampleStore1) :=
  (C5_delete_last_and_default exampleStore1 "drk").1 _ rfl (by decide) (by decide)

/-! ## Call-state-machine claims -/

/-- Inductive invariant of the call interface: the connection ref is
non-null exactly in the four active states, a pending speaking timeout
implies a live connection, and a pending ended-timer implies the `ENDED`
state. -/
theorem stepUI_preserves_inv (s : UIState) (e : UIEvent)
    (h1 : s.connection = true ↔
      (s.callState = .connecting ∨ s.callState = .userSpeaking ∨
       s.callState = .agentSpeaking ∨ s.callState = .conversation))
    (h2 : s.speakingTimeout = true → s.connection = true)
    (h3 : s.endedTimer = true → s.callState = .ended) :
    ((stepUI s e).connection = true ↔
      ((stepUI s e).callState = .connecting ∨ (stepUI s e).callState = .userSpeaking ∨
       (stepUI s e).callState = .agentSpeaking ∨ (stepUI s e).callState = .conversation)) ∧
    ((stepUI s e).speakingTimeout = true → (stepUI s e).connection = true) ∧
    ((stepUI s e).endedTimer = true → (stepUI s e).callState = .ended) := by
  cases e <;>
    simp only [stepUI, cleanupUI, endCallUI] <;>
    repeat' split
  all_goals simp_all
  all_goals
    cases he : s.endedTimer with
    | false => rfl
    | true => rcases h1 with h | h | h | h <;> simp_all

/-- The invariant holds in every reachable state of the call interface. -/
theorem UIReachable_inv (s : UIState) (h : UIReachable s) :
    (s.connection = true ↔
      (s.callState = .connecting ∨ s.callState = .userSpeaking ∨
       s.callState = .agentSpeaking ∨ s.callState = .conversation)) ∧
    (s.speakingTimeout = true → s.connection = true) ∧
    (s.endedTimer = true → s.callState = .ended) := by
  obtain ⟨pre, es, rfl⟩ := h
  suffices hgen : ∀ (t : UIState),
      ((t.connection = true ↔
        (t.callState = .connecting ∨ t.callState = .userSpeaking ∨
         t.callState = .agentSpeaking ∨ t.callState = .conversation)) ∧
       (t.speakingTimeout = true → t.connection = true) ∧
       (t.endedTimer = true → t.callState = .ended)) →
      ((es.foldl stepUI t).connection = true ↔
        ((es.foldl stepUI t).callState = .connecting ∨
         (es.foldl stepUI t).callState = .userSpeaking ∨
         (es.foldl stepUI t).callState = .agentSpeaking ∨
         (es.foldl stepUI t).callState = .conversation)) ∧
      ((es.foldl stepUI t).speakingTimeout = true →
        (es.foldl stepUI t).connection = true) ∧
      ((es.foldl stepUI t).endedTimer = true →
        (es.foldl stepUI t).callState = .ended) by
    apply hgen
    cases pre <;> simp [initUI]
  clear pre
  induction es with
  | nil => intro t ht; exact ht
  | cons e rest ih =>
    intro t ht
    exact ih (stepUI t e) (stepUI_preserves_inv t e ht.1 ht.2.1 ht.2.2)

/-- Claim C1: in every reachable state of the call interface the
connection handle (`connectionRef.current`, which owns the transport and
media pipeline) is non-null exactly when the call state is one of
`CONNECTING`, `USER_SPEAKING`, `AGENT_SPEAKING`, `CONVERSATION`. -/
theorem C1_connection_iff_active (s : UIState) (h : UIReachable s) :
    s.connection = true ↔
      (s.callState = .connecting ∨ s.callState = .userSpeaking ∨
       s.callState = .agentSpeaking ∨ s.callState = .conversation) :=
  (UIReachable_inv s h).1

/-- Witness for C1 at the reachable state after start and answer with a
loaded config: the connection exists and the state is `CONNECTING`. -/
theorem C1_connection_iff_active_witness :
    ((runUI true [UIEvent.startCall, UIEvent.answerCall]).connection = true ↔
      ((runUI true [UIEvent.startCall, UIEvent.answerCall]).callState = .connecting ∨
       (runUI true [UIEvent.startCall, UIEvent.answerCall]).callState = .userSpeaking ∨
       (runUI true [UIEvent.startCall, UIEvent.answerCall]).callState = .agentSpeaking ∨
       (runUI true [UIEvent.startCall, UIEvent.answerCall]).callState = .conversation)) :=
  C1_connection_iff_active _ ⟨true, [UIEvent.startCall, UIEvent.answerCall], rfl⟩

/-- Claim C2, counterexample: when the configuration failed to load, the
`answerCall` failure path records the error `"Konfiguration nicht
geladen"` but transitions to `IDLE`, not to `ENDED` as the claim states
(the catch block in `answerCall` calls `setCallState(CallState.IDLE)`). -/
theorem C2_counterexample :
    (runUI false [UIEvent.configFetchErr "Simulator nicht gefunden",
                  UIEvent.startCall, UIEvent.answerCall]).callState ≠ CallState.ended ∧
    (runUI false [UIEvent.configFetchErr "Simulator nicht gefunden",
                  UIEvent.startCall, UIEvent.answerCall]).callState = CallState.idle ∧
    (runUI false [UIEvent.configFetchErr "Simulator nicht gefunden",
                  UIEvent.startCall, UIEvent.answerCall]).error =
      "Konfiguration nicht geladen" := by
  refine ⟨by decide, by decide, rfl⟩

/-- Claim C2, amended: a Connecting-phase failure reported through the
connection's error callback transitions to `ENDED` with the error
recorded and the connection torn down (no transport survives); but the
failure thrown inside `answerCall` itself — configuration not loaded —
records its error and transitions to `IDLE`, not `ENDED`, with no
transport ever constructed. -/
theorem C2_connecting_failures (s : UIState) (msg : String) (h : UIReachable s) :
    (s.callState = .connecting →
      ((stepUI s (.onError msg)).callState = .ended ∧
       (stepUI s (.onError msg)).error = msg ∧
       (stepUI s (.onError msg)).connection = false)) ∧
    (s.callState = .ringing → s.configLoaded = false →
      ((stepUI s .answerCall).callState = .idle ∧
       (stepUI s .answerCall).error = "Konfiguration nicht geladen" ∧
       (stepUI s .answerCall).connection = false)) := by
  obtain ⟨hinv1, -, -⟩ := UIReachable_inv s h
  constructor
  · intro hc
    have hconn : s.connection = true := hinv1.mpr (Or.inl hc)
    simp [stepUI, hconn, endCallUI, cleanupUI]
  · intro hr hcfg
    have hconn : s.connection = false := by
      cases hco : s.connection with
      | false => rfl
      | true =>
        rcases hinv1.mp hco with h | h | h | h <;> rw [hr] at h <;> cases h
    simp [stepUI, hr, hcfg, hconn]

/-- Witness for C2: from the reachable `CONNECTING` state, a provider
error ends the call with the message recorded and the connection nulled. -/
theorem C2_connecting_failures_witness :
    (stepUI (runUI true [UIEvent.startCall, UIEvent.answerCall])
        (.onError "Verbindung unterbrochen")).callState = .ended ∧
    (stepUI (runUI true [UIEvent.startCall, UIEvent.answerCall])
        (.onError "Verbindung unterbrochen")).error = "Verbindung unterbrochen" ∧
    (stepUI (runUI true [UIEvent.startCall, UIEvent.answerCall])
        (.onError "Verbindung unterbrochen")).connection = false :=
  (C2_connecting_failures _ "Verbindung unterbrochen"
      ⟨true, [UIEvent.startCall, UIEvent.answerCall], rfl⟩).1 (by decide)

/-! ## Audio-pipeline claims -/

theorem stopTracks_singleton (k : Nat) (t : List Bool) :
    stopTracks [k] t = t.set k true := rfl

theorem set_replicate_false (k : Nat) :
    (List.replicate k true ++ [false]).set k true = List.replicate (k + 1) true := by
  induction k with
  | zero => rfl
  | succ m ih =>
    simp only [List.replicate_succ, List.cons_append, List.set_cons_succ]
    rw [ih]
    simp [List.replicate_succ]

/-- Track-shape invariant: either no stream is held and every track ever
acquired is stopped, or the stream holds exactly the most recently
acquired track and all earlier ones are stopped. -/
theorem stopCapture_tracks (s : APState)
    (h : (s.mediaStream = none ∧ ∀ b ∈ s.tracks, b = true) ∨
      (∃ k, s.tracks = List.replicate k true ++ [false] ∧ s.mediaStream = some [k])) :
    (stopCapture s).mediaStream = none ∧ ∀ b ∈ (stopCapture s).tracks, b = true := by
  rcases h with ⟨hms, hall⟩ | ⟨k, htr, hms⟩
  · have htracks : (stopCapture s).tracks = s.tracks := by
      cases hac : s.audioContext <;> simp [stopCapture, hms, hac]
    have hmsout : (stopCapture s).mediaStream = none := by
      cases hac : s.audioContext <;> simp [stopCapture, hms, hac]
    refine ⟨hmsout, ?_⟩
    rw [htracks]
    exact hall
  · have htracks : (stopCapture s).tracks = List.replicate (k + 1) true := by
      cases hac : s.audioContext <;>
        simp [stopCapture, hms, hac, stopTracks_singleton, htr, set_replicate_false] <;>
        rw [List.replicate_succ']
    have hmsout : (stopCapture s).mediaStream = none := by
      cases hac : s.audioContext <;> simp [stopCapture, hms, hac]
    refine ⟨hmsout, ?_⟩
    rw [htracks]
    intro b hb
    exact List.eq_of_mem_replicate hb

theorem APReachable_tracks (s : APState) (h : APReachable s) :
    (s.mediaStream = none ∧ ∀ b ∈ s.tracks, b = true) ∨
    (∃ k, s.tracks = List.replicate k true ++ [false] ∧ s.mediaStream = some [k]) := by
  induction h with
  | init => exact Or.inl ⟨rfl, by simp [APState.init]⟩
  | request s s' hr hnone hok ih =>
    have hs' : s' = { s with tracks := s.tracks ++ [false],
                             mediaStream := some [s.tracks.length] } := by
      simp [requestMicrophoneAccess] at hok
      exact hok.symm
    subst hs'
    rcases ih with ⟨-, hall⟩ | ⟨k, -, hms⟩
    · right
      refine ⟨s.tracks.length, ?_, rfl⟩
      show s.tracks ++ [false] = List.replicate s.tracks.length true ++ [false]
      conv_lhs => rw [List.eq_replicate_of_mem hall]
    · rw [hnone] at hms
      cases hms
  | startCap s s' hr hac hok ih =>
    have hs' : s' = { s with audioContext := true, scriptProcessor := true,
                             sourceNode := true } := by
      unfold startCapture at hok
      split at hok
      · cases hok
      · injection hok with hok
        exact hok.symm
    subst hs'
    exact ih
  | play tNow dur s hr ih => exact ih
  | stopCap s hr ih => exact Or.inl (stopCapture_tracks s ih)
  | stopPlay s hr ih => exact ih
  | cleanup s hr ih =>
    have h1 := stopCapture_tracks s ih
    left
    have : apCleanup s = (let s2 := stopPlayback (stopCapture s);
        if s2.audioContext then { s2 with audioContext := false } else s2) := rfl
    by_cases hac : (stopPlayback (stopCapture s)).audioContext
    · simp only [apCleanup, if_pos hac]
      exact ⟨h1.1, h1.2⟩
    · simp only [apCleanup, if_neg hac]
      exact ⟨h1.1, h1.2⟩

theorem apCleanup_idem (s : APState) : apCleanup (apCleanup s) = apCleanup s := by
  cases s with
  | mk tracks ms ac sp sn q nst =>
    cases ms <;> cases ac <;>
      simp [apCleanup, stopCapture, stopPlayback]

/-- Claim C8: for every reachable prior state of the audio pipeline
(capture started or not, playback queued or not) and every `N ≥ 1`,
calling `cleanup` `N` times equals calling it once (the 2nd..Nth calls
are no-ops — in the model every operation `cleanup` performs is total,
the only throwing site, `source.stop()` on a stopped node, being wrapped
in try/catch), and after it no acquired microphone track is open, no
audio context or node reference is live, and the playback queue and
schedule are cleared. -/
theorem C8_cleanup_idempotent (s : APState) (h : APReachable s) :
    (∀ n, 1 ≤ n → apCleanup^[n] s = apCleanup s) ∧
    (∀ b ∈ (apCleanup s).tracks, b = true) ∧
    (apCleanup s).mediaStream = none ∧
    (apCleanup s).audioContext = false ∧
    (apCleanup s).scriptProcessor = false ∧
    (apCleanup s).sourceNode = false ∧
    (apCleanup s).audioQueue = [] ∧
    (apCleanup s).nextStartTime = 0 := by
  have htr := stopCapture_tracks s (APReachable_tracks s h)
  have hiter : ∀ n, 1 ≤ n → apCleanup^[n] s = apCleanup s := by
    intro n hn
    induction n with
    | zero => omega
    | succ k ih =>
      cases Nat.lt_or_ge k 1 with
      | inl hk =>
        have hk0 : k = 0 := by omega
        subst hk0
        rfl
      | inr hk =>
        rw [Function.iterate_succ_apply', ih hk, apCleanup_idem]
  have hstruct : (apCleanup s).mediaStream = none ∧
      (apCleanup s).audioContext = false ∧
      (apCleanup s).scriptProcessor = false ∧
      (apCleanup s).sourceNode = false ∧
      (apCleanup s).audioQueue = [] ∧
      (apCleanup s).nextStartTime = 0 := by
    cases s with
    | mk tracks ms ac sp sn q nst =>
      cases ms <;> cases ac <;>
        simp [apCleanup, stopCapture, stopPlayback]
  have htracks : ∀ b ∈ (apCleanup s).tracks, b = true := by
    intro b hb
    apply htr.2 b
    have heq : (apCleanup s).tracks = (stopCapture s).tracks := by
      by_cases hac : (stopPlayback (stopCapture s)).audioContext
      · simp only [apCleanup, if_pos hac]
        rfl
      · simp only [apCleanup, if_neg hac]
        rfl
    rw [heq] at hb
    exact hb
  exact ⟨hiter, htracks, hstruct.1, hstruct.2.1, hstruct.2.2.1, hstruct.2.2.2.1,
    hstruct.2.2.2.2.1, hstruct.2.2.2.2.2⟩

/-- Witness for C8 at the concrete state after acquiring the microphone
and starting capture: two cleanups equal one, and the acquired track ends
stopped. -/
theorem C8_cleanup_idempotent_witness :
    apCleanup^[2] { tracks := [false], mediaStream := some [0],
                    audioContext := true, scriptProcessor := true,
                    sourceNode := true, audioQueue := [], nextStartTime := 0 } =
      apCleanup { tracks := [false], mediaStream := some [0],
                  audioContext := true, scriptProcessor := true,
                  sourceNode := true, audioQueue := [], nextStartTime := 0 } ∧
    ∀ b ∈ (apCleanup { tracks := [false], mediaStream := some [0],
                       audioContext := true, scriptProcessor := true,
                       sourceNode := true, audioQueue := [],
                       nextStartTime := 0 } : APState).tracks, b = true := by
  have hre : APReachable { tracks := [false], mediaStream := some [0],
                           audioContext := true, scriptProcessor := true,
                           sourceNode := true, audioQueue := [],
                           nextStartTime := 0 } :=
    APReachable.startCap _ _
      (APReachable.request _ _ APReachable.init rfl rfl) rfl rfl
  exact ⟨(C8_cleanup_idempotent _ hre).1 2 (by omega),
         (C8_cleanup_idempotent _ hre).2.1⟩

/-! ## Index-invariant claims -/

theorem kvGet_isSome_exists (k : String) (l : List (String × SimulatorConfig))
    (h : (kvGet k l).isSome = true) : ∃ p ∈ l, p.1 = k := by
  unfold kvGet at h
  cases hf : l.find? (fun p => p.1 == k) with
  | none => rw [hf] at h; cases h
  | some p =>
    have hmem := List.mem_of_find?_eq_some hf
    have hpk := List.find?_some hf
    simp at hpk
    exact ⟨p, hmem, hpk⟩

theorem consistent_not_mem_of_none (st : KVStore) (idx : SimulatorIndex)
    (hcons : StoreConsistent st idx) (k : String)
    (h : (kvGet k st.configs).isSome = false) :
    k ∉ idx.simulators.map SimulatorMetadata.slug := by
  intro hmem
  obtain ⟨m, hm, hslug⟩ := List.mem_map.mp hmem
  have := hcons.1 m hm
  rw [hslug] at this
  rw [this] at h
  cases h

theorem map_slug_filter_append_nodup (sims : List SimulatorMetadata)
    (meta : SimulatorMetadata) (slug newSlug : String)
    (hmeta : meta.slug = newSlug)
    (hnodup : (sims.map SimulatorMetadata.slug).Nodup) :
    (((sims.filter (fun s => s.slug != slug && s.slug != newSlug)) ++ [meta]).map
      SimulatorMetadata.slug).Nodup := by
  rw [List.map_append]
  rw [List.nodup_append]
  refine ⟨?_, by simp, ?_⟩
  · exact hnodup.sublist ((List.filter_sublist sims).map SimulatorMetadata.slug)
  · intro x hx hy
    simp only [List.map_cons, List.map_nil, List.mem_singleton] at hy
    subst hy
    obtain ⟨m, hm, hslug⟩ := List.mem_map.mp hx
    have hpred := List.of_mem_filter hm
    simp only [Bool.and_eq_true, bne_iff_ne, ne_eq] at hpred
    exact hpred.2 (by rw [hslug, hmeta])

theorem map_slug_replace (sims : List SimulatorMetadata) (slug : String)
    (meta : SimulatorMetadata) (hmeta : meta.slug = slug) :
    ((sims.map (fun s => if s.slug == slug then meta else s)).map
      SimulatorMetadata.slug) = sims.map SimulatorMetadata.slug := by
  induction sims with
  | nil => rfl
  | cons m rest ih =>
    simp only [List.map_cons, List.cons.injEq]
    refine ⟨?_, ih⟩
    by_cases hm : m.slug == slug
    · rw [if_pos hm]
      have : m.slug = slug := by simpa using hm
      rw [hmeta, this]
    · rw [if_neg hm]

theorem mem_filter_slugs (sims : List SimulatorMetadata) (d slug newSlug : String)
    (hd : d ∈ sims.map SimulatorMetadata.slug) (h1 : d ≠ slug) (h2 : d ≠ newSlug) :
    d ∈ ((sims.filter (fun s => s.slug != slug && s.slug != newSlug)).map
      SimulatorMetadata.slug) := by
  obtain ⟨m, hm, hslug⟩ := List.mem_map.mp hd
  refine List.mem_map.mpr ⟨m, ?_, hslug⟩
  refine List.mem_filter.mpr ⟨hm, ?_⟩
  simp only [Bool.and_eq_true, bne_iff_ne, ne_eq]
  rw [hslug]
  exact ⟨h1, h2⟩

/-- Invariant preservation for the index update the upsert computes, under
the semantic side conditions the handler's checks establish. -/
theorem updatedIndexAfterUpsert_inv (idx : SimulatorIndex) (slug newSlug : String)
    (meta : SimulatorMetadata) (isNew slugChanged : Bool)
    (hmeta : meta.slug = newSlug)
    (hinv : IndexInv idx) (hne : idx.simulators ≠ [])
    (hAB : (slugChanged || isNew) = true →
      newSlug ∉ idx.simulators.map SimulatorMetadata.slug)
    (hB : isNew = true → slug ∉ idx.simulators.map SimulatorMetadata.slug)
    (hA : (slugChanged || isNew) = false → newSlug = slug) :
    IndexInv (updatedIndexAfterUpsert idx slug newSlug meta isNew slugChanged) := by
  obtain ⟨hnodup, hdef⟩ := hinv
  have hdefmem := hdef hne
  by_cases hcase : (slugChanged || isNew) = true
  · have hsim : (updatedIndexAfterUpsert idx slug newSlug meta isNew slugChanged).simulators =
        idx.simulators.filter (fun s => s.slug != slug && s.slug != newSlug) ++ [meta] := by
      simp only [updatedIndexAfterUpsert, if_pos hcase]
    have hnsnot := hAB hcase
    constructor
    · rw [hsim]
      exact map_slug_filter_append_nodup _ _ _ _ hmeta hnodup
    · intro _
      rw [hsim]
      by_cases hdslug : (slugChanged && (idx.defaultSlug == slug)) = true
      · have hds : (updatedIndexAfterUpsert idx slug newSlug meta isNew
            slugChanged).defaultSlug = newSlug := by
          simp only [updatedIndexAfterUpsert, if_pos hdslug]
        rw [hds, List.map_append]
        refine List.mem_append.mpr (Or.inr ?_)
        simp [hmeta]
      · have hds : (updatedIndexAfterUpsert idx slug newSlug meta isNew
            slugChanged).defaultSlug = idx.defaultSlug := by
          simp only [updatedIndexAfterUpsert, if_neg hdslug]
        rw [hds, List.map_append]
        refine List.mem_append.mpr (Or.inl ?_)
        have hdnens : idx.defaultSlug ≠ newSlug := by
          intro h
          rw [h] at hdefmem
          exact hnsnot hdefmem
        have hdnes : idx.defaultSlug ≠ slug := by
          rcases Bool.or_eq_true_iff.mp hcase with hsc | hin
          · intro h
            apply hdslug
            rw [hsc, Bool.true_and]
            simpa using h
          · intro h
            rw [h] at hdefmem
            exact hB hin hdefmem
        exact mem_filter_slugs _ _ _ _ hdefmem hdnes hdnens
  · have hboth : slugChanged = false ∧ isNew = false := by
      constructor
      · cases hsc : slugChanged with
        | false => rfl
        | true => exact absurd (by rw [hsc]; simp) hcase
      · cases hin : isNew with
        | false => rfl
        | true => exact absurd (by rw [hin]; simp) hcase
    have hns : newSlug = slug := hA (by simp [hboth.1, hboth.2])
    have hmeta2 : meta.slug = slug := by rw [hmeta, hns]
    have hsim : (updatedIndexAfterUpsert idx slug newSlug meta isNew slugChanged).simulators =
        idx.simulators.map (fun s => if s.slug == slug then meta else s) := by
      simp only [updatedIndexAfterUpsert, if_neg hcase]
    have hds : (updatedIndexAfterUpsert idx slug newSlug meta isNew
        slugChanged).defaultSlug = idx.defaultSlug := by
      simp only [updatedIndexAfterUpsert, hboth.1, Bool.false_and, if_neg]
      simp
    constructor
    · rw [hsim, map_slug_replace _ slug meta hmeta2]
      exact hnodup
    · intro _
      rw [hsim, hds, map_slug_replace _ slug meta hmeta2]
      exact hdefmem

theorem buildConfig_metadata_slug (body : UpdateBody) (md : BodyMetadata)
    (newSlug now : String) (e : Option SimulatorConfig) :
    (buildConfig body md newSlug now e).metadata.slug = newSlug := rfl

/-- Inversion of a successful upsert: the request validated, the index
existed, and the stored index becomes exactly `updatedIndexAfterUpsert`
with the collision checks known to have passed. -/
theorem updateHandler_ok_inversion (slug : String) (body : UpdateBody) (now : String)
    (st : KVStore) (cfg : SimulatorConfig) (sc : Bool) (ns : Option String)
    (st2 : KVStore)
    (h : updateHandler slug body now st = (.ok cfg sc ns, st2)) :
    ∃ index md newSlug,
      st.index = some index ∧ body.metadata = some md ∧ md.slug = some newSlug ∧
      ((((!(kvGet slug st.configs).isNone && newSlug != slug) ||
          (kvGet slug st.configs).isNone) = true) →
        (kvGet newSlug st.configs).isSome = false) ∧
      st2.index = some (updatedIndexAfterUpsert index slug newSlug
        (buildConfig body md newSlug now (kvGet slug st.configs)).metadata
        (kvGet slug st.configs).isNone
        (!(kvGet slug st.configs).isNone && newSlug != slug)) := by
  cases hval : updateValidationError body with
  | some msg =>
    have hred : updateHandler slug body now st = (.err 400 msg, st) := by
      simp [updateHandler, hval]
    rw [hred] at h
    injection h with h1 h2
    injection h1
  | none =>
  cases hidx : st.index with
  | none =>
    have hred : updateHandler slug body now st =
        (.err 500 "Simulator index not found", st) := by
      simp [updateHandler, hval, hidx]
    rw [hred] at h
    injection h with h1 h2
    injection h1
  | some index =>
  cases hmd : body.metadata with
  | none =>
    have hred : updateHandler slug body now st =
        (.err 400 "Invalid slug (lowercase alphanumeric and hyphens only)", st) := by
      simp [updateHandler, hval, hidx, hmd]
    rw [hred] at h
    injection h with h1 h2
    injection h1
  | some md =>
  cases hms : md.slug with
  | none =>
    have hred : updateHandler slug body now st =
        (.err 400 "Invalid slug (lowercase alphanumeric and hyphens only)", st) := by
      simp [updateHandler, hval, hidx, hmd, hms]
    rw [hred] at h
    injection h with h1 h2
    injection h1
  | some newSlug =>
  by_cases hvs : (newSlug == "" || !isValidSlug newSlug.toList) = true
  · have hred : updateHandler slug body now st =
        (.err 400 "Invalid slug (lowercase alphanumeric and hyphens only)", st) := by
      simp only [updateHandler, hval, hidx, hmd, hms]
      rw [if_pos hvs]
    rw [hred] at h
    injection h with h1 h2
    injection h1
  · by_cases hc1 : ((!(kvGet slug st.configs).isNone && newSlug != slug) &&
        (kvGet newSlug st.configs).isSome) = true
    · have hred : updateHandler slug body now st =
          (.err 400 "A simulator with this slug already exists", st) := by
        simp only [updateHandler, hval, hidx, hmd, hms]
        rw [if_neg hvs, if_pos hc1]
      rw [hred] at h
      injection h with h1 h2
      injection h1
    · by_cases hc2 : ((kvGet slug st.configs).isNone &&
          (kvGet newSlug st.configs).isSome) = true
      · have hred : updateHandler slug body now st =
            (.err 400 "A simulator with this slug already exists", st) := by
          simp only [updateHandler, hval, hidx, hmd, hms]
          rw [if_neg hvs, if_neg hc1, if_pos hc2]
        rw [hred] at h
        injection h with h1 h2
        injection h1
      · have hred : updateHandler slug body now st =
            (.ok (buildConfig body md newSlug now (kvGet slug st.configs))
              (!(kvGet slug st.configs).isNone && newSlug != slug)
              (if (!(kvGet slug st.configs).isNone && newSlug != slug) = true
               then some newSlug else none),
             { st with
               configs :=
                 if (!(kvGet slug st.configs).isNone && newSlug != slug) = true
                 then kvDel slug (kvSet newSlug
                   (buildConfig body md newSlug now (kvGet slug st.configs)) st.configs)
                 else kvSet newSlug
                   (buildConfig body md newSlug now (kvGet slug st.configs)) st.configs,
               index := some (updatedIndexAfterUpsert index slug newSlug
                 (buildConfig body md newSlug now (kvGet slug st.configs)).metadata
                 (kvGet slug st.configs).isNone
                 (!(kvGet slug st.configs).isNone && newSlug != slug)) }) := by
          simp only [updateHandler, hval, hidx, hmd, hms]
          rw [if_neg hvs, if_neg hc1, if_neg hc2]
        rw [hred] at h
        injection h with h1 h2
        refine ⟨index, md, newSlug, rfl, rfl, hms, ?_, ?_⟩
        · intro hcond
          rcases Bool.or_eq_true_iff.mp hcond with hsc | hin
          · cases hsome : (kvGet newSlug st.configs).isSome with
            | false => rfl
            | true => exact absurd (by rw [hsc, hsome]; rfl) hc1
          · cases hsome : (kvGet newSlug st.configs).isSome with
            | false => rfl
            | true => exact absurd (by rw [hin, hsome]; rfl) hc2
        · rw [← h2]

theorem mem_filter_slug_single (sims : List SimulatorMetadata) (d slug : String)
    (hd : d ∈ sims.map SimulatorMetadata.slug) (h1 : d ≠ slug) :
    d ∈ ((sims.filter (fun s => s.slug != slug)).map SimulatorMetadata.slug) := by
  obtain ⟨m, hm, hslug⟩ := List.mem_map.mp hd
  refine List.mem_map.mpr ⟨m, ?_, hslug⟩
  refine List.mem_filter.mpr ⟨hm, ?_⟩
  simp only [bne_iff_ne, ne_eq]
  rw [hslug]
  exact h1

theorem IndexInv_drk (now : String) :
    IndexInv { simulators := [drkMetadata now], defaultSlug := "drk" } := by
  constructor
  · simp
  · intro _
    simp [drkMetadata]

/-- Claim C9, amended: every successful index-mutating operation — the
list handler's index initialization/migration, the upsert (including slug
renames), and the delete — preserves the index invariant (pairwise
distinct entry slugs; in a non-empty index, `defaultSlug` names one of
the entries), provided the store additionally satisfies the consistency
that holds in every store the handlers themselves build: a slug has a
stored config exactly when it appears in the index, and the index is
non-empty.  (Without that consistency the upsert can orphan
`defaultSlug`; see the counterexample.) -/
theorem C9_index_invariant_preserved :
    (∀ slug body now st idx cfg sc ns st2,
      st.index = some idx → IndexInv idx → StoreConsistent st idx →
      idx.simulators ≠ [] →
      updateHandler slug body now st = (.ok cfg sc ns, st2) →
      ∃ idx2, st2.index = some idx2 ∧ IndexInv idx2) ∧
    (∀ slug st idx d nd st2,
      st.index = some idx → IndexInv idx →
      deleteHandler slug st = (.ok d nd, st2) →
      ∃ idx2, st2.index = some idx2 ∧ IndexInv idx2) ∧
    (∀ now st r st2,
      listHandler now st = (r, st2) →
      (∀ idx, st.index = some idx → IndexInv idx) →
      ∀ idx2, st2.index = some idx2 → IndexInv idx2) := by
  refine ⟨?_, ?_, ?_⟩
  · -- upsert
    intro slug body now st idx cfg sc ns st2 hidx hinv hcons hne hok
    obtain ⟨index, md, newSlug, hidx2, hmd, hms, hcol, hst2⟩ :=
      updateHandler_ok_inversion slug body now st cfg sc ns st2 hok
    have hie : index = idx := by
      rw [hidx] at hidx2
      injection hidx2 with hie
      exact hie.symm
    subst hie
    refine ⟨_, hst2, ?_⟩
    apply updatedIndexAfterUpsert_inv _ _ _ _ _ _
      (buildConfig_metadata_slug body md newSlug now (kvGet slug st.configs))
      hinv hne
    · intro hcond
      exact consistent_not_mem_of_none st index hcons newSlug (hcol hcond)
    · intro hin
      have hnone : (kvGet slug st.configs).isSome = false := by
        rw [Option.isNone_iff_eq_none] at hin
        rw [hin]
        rfl
      exact consistent_not_mem_of_none st index hcons slug hnone
    · intro hfalse
      rcases Bool.or_eq_false_iff.mp hfalse with ⟨hsc, hin⟩
      have hnotnew : (!(kvGet slug st.configs).isNone) = true := by
        rw [hin]
        rfl
      rw [hnotnew, Bool.true_and] at hsc
      simpa using hsc
  · -- delete
    intro slug st idx d nd st2 hidx hinv hok
    by_cases hany : idx.simulators.any (fun s => s.slug == slug) = true
    case neg =>
      have hany2 : idx.simulators.any (fun s => s.slug == slug) = false := by
        simpa using hany
      have hred : deleteHandler slug st = (.err 404 "Simulator not found", st) := by
        simp [deleteHandler, hidx, hany2]
      rw [hred] at hok
      injection hok with h1 h2
      injection h1
    case pos =>
    have hnonempty : idx.simulators ≠ [] := by
      intro h
      rw [h] at hany
      cases hany
    have hdefmem := hinv.2 hnonempty
    have hnodup2 : ((idx.simulators.filter (fun s => s.slug != slug)).map
        SimulatorMetadata.slug).Nodup :=
      hinv.1.sublist ((List.filter_sublist idx.simulators).map SimulatorMetadata.slug)
    by_cases hlen : idx.simulators.length ≤ 1
    case pos =>
      have hred : deleteHandler slug st =
          (.err 400 "Cannot delete the last simulator", st) := by
        simp [deleteHandler, hidx, hany, hlen]
      rw [hred] at hok
      injection hok with h1 h2
      injection h1
    case neg =>
    by_cases hdef : idx.defaultSlug == slug
    · cases hhead : (idx.simulators.filter (fun s => s.slug != slug)).head? with
      | none =>
        have hred : deleteHandler slug st =
            (.err 500 "Failed to delete simulator", st) := by
          have hds : idx.defaultSlug = slug := by simpa using hdef
          simp [deleteHandler, hidx, hany, hlen, hds, hhead]
        rw [hred] at hok
        injection hok with h1 h2
        injection h1
      | some m =>
        have hds : idx.defaultSlug = slug := by simpa using hdef
        have hred : deleteHandler slug st =
            (.ok slug (some m.slug),
              { st with configs := kvDel slug st.configs,
                        index := some { simulators :=
                                          idx.simulators.filter (fun s => s.slug != slug),
                                        defaultSlug := m.slug } }) := by
          simp [deleteHandler, hidx, hany, hlen, hds, hhead]
        rw [hred] at hok
        injection hok with h1 h2
        refine ⟨_, by rw [← h2], ?_, ?_⟩
        · exact hnodup2
        · intro _
          exact List.mem_map_of_mem _ (List.mem_of_mem_head? hhead)
    · have hds : ¬(idx.defaultSlug = slug) := by simpa using hdef
      have hred : deleteHandler slug st =
          (.ok slug none,
            { st with configs := kvDel slug st.configs,
                      index := some { simulators :=
                                        idx.simulators.filter (fun s => s.slug != slug),
                                      defaultSlug := idx.defaultSlug } }) := by
        simp [deleteHandler, hidx, hany, hlen, hds, hdef]
      rw [hred] at hok
      injection hok with h1 h2
      refine ⟨_, by rw [← h2], ?_, ?_⟩
      · exact hnodup2
      · intro _
        exact mem_filter_slug_single _ _ _ hdefmem hds
  · -- list
    intro now st r st2 hrun hpre idx2 hidx2
    unfold listHandler at hrun
    cases hst : st.index with
    | some idx =>
      rw [hst] at hrun
      injection hrun with h1 h2
      rw [← h2, hst] at hidx2
      injection hidx2 with h3
      rw [← h3]
      exact hpre idx hst
    | none =>
      rw [hst] at hrun
      cases hmig : migrateFromOldConfig now st with
      | some p =>
        rw [hmig] at hrun
        unfold migrateFromOldConfig at hmig
        cases hold : st.oldConfig with
        | none => rw [hold] at hmig; cases hmig
        | some oldCfg =>
          rw [hold] at hmig
          injection hmig with hp
          cases p with
          | mk pidx pst =>
            injection hrun with h1 h2
            have hpst : pst.index = some { simulators := [drkMetadata now],
                                           defaultSlug := "drk" } := by
              have := congrArg Prod.snd hp
              simp at this
              rw [← this]
            rw [← h2, hpst] at hidx2
            injection hidx2 with h3
            rw [← h3]
            exact IndexInv_drk now
      | none =>
        rw [hmig] at hrun
        injection hrun with h1 h2
        rw [← h2] at hidx2
        have : ({ st with
            configs := kvSet "drk" (configOfFields DEFAULT_PROMPT_CONFIG
              (generateSystemPrompt DEFAULT_PROMPT_CONFIG) (drkMetadata now)) st.configs,
            index := some { simulators := [drkMetadata now],
                            defaultSlug := "drk" } } : KVStore).index =
            some { simulators := [drkMetadata now], defaultSlug := "drk" } := rfl
        rw [this] at hidx2
        injection hidx2 with h3
        rw [← h3]
        exact IndexInv_drk now

/-- Claim C9, counterexample: starting from a store whose index satisfies
the invariant (one entry `a`, default `a`) but which has no stored config
under `a`, the upsert at route slug `a` with body slug `b` succeeds and
leaves an index whose `defaultSlug` `a` names no entry: because the
config key is missing the handler treats the request as a creation
(`isNew`), never reassigns the default, yet filters the `a` entry out of
the index. -/
theorem C9_counterexample :
    IndexInv { simulators := [{ slug := "a", title := "A", subtitle := "A",
                                accentColor := "#fff", createdAt := "t0",
                                updatedAt := "t0" }], defaultSlug := "a" } ∧
    (updateHandler "a"
        { agentName := some "Sarah", donorName := some "Max",
          currentAmount := some 20, targetAmount := some 35,
          donationHistory := none, contactTone := some "Friendly",
          additionalInstructions := none, voice := none,
          systemPrompt := some "0123456789",
          metadata := some { slug := some "b", title := some "B",
                             subtitle := some "B", accentColor := some "#fff" } }
        "t1"
        { configs := [],
          index := some { simulators := [{ slug := "a", title := "A",
                                           subtitle := "A", accentColor := "#fff",
                                           createdAt := "t0", updatedAt := "t0" }],
                          defaultSlug := "a" },
          oldConfig := none }).1 =
      .ok { agentName := "Sarah", donorName := "Max", currentAmount := 20,
            targetAmount := 35, donationHistory := "", contactTone := "Friendly",
            additionalInstructions := "", voice := "marin",
            systemPrompt := "0123456789",
            metadata := { slug := "b", title := "B", subtitle := "B",
                          accentColor := "#fff", createdAt := "t1",
                          updatedAt := "t1" } } false none ∧
    (updateHandler "a"
        { agentName := some "Sarah", donorName := some "Max",
          currentAmount := some 20, targetAmount := some 35,
          donationHistory := none, contactTone := some "Friendly",
          additionalInstructions := none, voice := none,
          systemPrompt := some "0123456789",
          metadata := some { slug := some "b", title := some "B",
                             subtitle := some "B", accentColor := some "#fff" } }
        "t1"
        { configs := [],
          index := some { simulators := [{ slug := "a", title := "A",
                                           subtitle := "A", accentColor := "#fff",
                                           createdAt := "t0", updatedAt := "t0" }],
                          defaultSlug := "a" },
          oldConfig := none }).2.index =
      some { simulators := [{ slug := "b", title := "B", subtitle := "B",
                              accentColor := "#fff", createdAt := "t1",
                              updatedAt := "t1" }], defaultSlug := "a" } ∧
    ¬ IndexInv { simulators := [{ slug := "b", title := "B", subtitle := "B",
                                  accentColor := "#fff", createdAt := "t1",
                                  updatedAt := "t1" }], defaultSlug := "a" } := by
  refine ⟨by decide, by decide, by decide, by decide⟩

/-- Witness for C9 applying the amended preservation theorem to a
concrete consistent one-simulator store: upserting the existing slug
succeeds and the resulting index still satisfies the invariant. -/
theorem C9_index_invariant_preserved_witness :
    ∃ idx2, (updateHandler "drk" exampleBody "t1" exampleStore1).2.index =
      some idx2 ∧ IndexInv idx2 :=
  C9_index_invariant_preserved.1 "drk" exampleBody "t1" exampleStore1
    { simulators := [exampleMetadata], defaultSlug := "drk" }
    exampleConfigT1 false none exampleStore1After
    rfl (by decide) (by decide) (by decide) (by decide)
